import Mathlib

/-!
AGROSMART: OTP authentication and crop recommendation.

A shallow embedding of `routes/auth.js`, `models/Farmer.js` and
`routes/recommendation.js`.

Conventions of the embedding.
* A JavaScript number is embedded as the rational it denotes. The products and the
  sum the routes compute are rounded to the nearest IEEE 754 double, a tie going
  to the even significand (`roundFinite`); a product beyond the finite range is
  an infinity (`roundDouble`, `JsNumber`). Timestamps (`Date.now()`, the stored
  `otpExpires` date) are integers of milliseconds, exact in doubles.
* `Math.random()` and `Date.now()` are inputs of a request (`Env`), so a handler
  is a pure function from the directory before the request to a response and
  the directory after it.
* The farmer collection is a list of documents in insertion order; `findOne`
  returns the first match, an insert honours the unique indexes on `_id` and
  `phoneNumber`, an update rewrites the documents carrying the saved `_id`.
  The bookkeeping paths kept by the schema option `timestamps` are not part of
  the model.
* Request bodies carry strings; `server.js` refuses to start without
  `JWT_SECRET`, so signing a token cannot fail.
-/

namespace AgroSmart

/-! ## IEEE 754 double arithmetic -/

/-- Nearest integer to a rational, a tie going to the even integer. -/
def roundHalfEven (x : ℚ) : Int :=
  let n := Rat.floor x
  if x - n < 1 / 2 then n
  else if 1 / 2 < x - n then n + 1
  else if n % 2 = 0 then n else n + 1

/-- Exponent of the spacing of the doubles around `x`: 52 below the binary exponent
of `x`, which is held at -1022 in the subnormal range. -/
def ulpExponent (x : ℚ) : Int := max (Int.log 2 |x|) (-1022) - 52

/-- Nearest double to a rational (round to nearest, ties to even), the exponent
range taken unbounded above. -/
def roundFinite (x : ℚ) : ℚ :=
  roundHalfEven (x / 2 ^ ulpExponent x) * 2 ^ ulpExponent x

/-- A JavaScript number: a finite value, an infinity with its sign, or `NaN`. -/
inductive JsNumber where
  | fin (q : ℚ)
  | inf (negative : Bool)
  | nan
deriving DecidableEq

/-- Numerals denote finite numbers. -/
instance (n : Nat) : OfNat JsNumber n := ⟨.fin n⟩

/-- The double an exact result is rounded to: the nearest finite double, or the
infinity of its sign when that would be `2 ^ 1024` or more in magnitude. -/
def roundDouble (x : ℚ) : JsNumber :=
  if |roundFinite x| < 2 ^ 1024 then .fin (roundFinite x) else .inf (decide (x < 0))

/-- A rational that is a finite double. -/
def isDouble (x : ℚ) : Prop := roundDouble x = .fin x

/-- Whether a rational is a finite double can be computed. -/
instance (x : ℚ) : Decidable (isDouble x) :=
  inferInstanceAs (Decidable (roundDouble x = .fin x))

/-! ## Data model (models/Farmer.js) -/

/-- Farmer document: `otp` and `otpExpires` are the optional paths of the schema. -/
structure Farmer where
  id : Nat
  name : String
  phoneNumber : String
  district : String
  otp : Option String
  otpExpires : Option Int
deriving DecidableEq, Repr

/-- Farmer collection, in insertion order. -/
abbrev Directory := List Farmer

/-- Inputs a handler reads from its environment: `Date.now()`, `Math.random()` (a
double in `[0, 1)`) and the `_id` a freshly constructed document is given. -/
structure Env where
  now : Int
  random : ℚ
  oid : Nat
deriving DecidableEq

/-- Payload signed by `jwt.sign` in the verify-otp route, with its expiry in seconds. -/
structure Token where
  id : Nat
  phoneNumber : String
  exp : Int
deriving DecidableEq, Repr

/-- JSON body of a response together with its HTTP status. -/
structure Response where
  status : Nat
  success : Bool
  message : String
  token : Option Token
deriving DecidableEq, Repr

/-- Body of `POST /signup`. -/
structure SignupBody where
  name : String
  phoneNumber : String
  district : String
deriving DecidableEq

/-- Body of `POST /login`. -/
structure LoginBody where
  phoneNumber : String
deriving DecidableEq

/-- Body of `POST /verify-otp`. -/
structure VerifyBody where
  phoneNumber : String
  otp : String
deriving DecidableEq

/-! ## Directory operations -/

/-- Query `Farmer.findOne({ phoneNumber })`: the first document with that phone number. -/
def findOne (dir : Directory) (phoneNumber : String) : Option Farmer :=
  dir.find? (fun f => f.phoneNumber == phoneNumber)

/-- Query `Farmer.findById(id)`: the first document with that `_id`. -/
def findById (dir : Directory) (id : Nat) : Option Farmer :=
  dir.find? (fun f => f.id == id)

/-- Call of `save()` on a new document: an insert, refused with a duplicate-key error when
the `_id` or the unique `phoneNumber` is already taken. -/
def insertOne (dir : Directory) (f : Farmer) : Except String Directory :=
  if dir.any (fun g => g.id == f.id || g.phoneNumber == f.phoneNumber) then
    .error "E11000 duplicate key error"
  else .ok (dir ++ [f])

/-- Call of `save()` on a document loaded from the collection: an update by `_id`. -/
def updateOne (dir : Directory) (f : Farmer) : Directory :=
  dir.map (fun g => if g.id = f.id then f else g)

/-! ## Validation chains (express-validator) -/

/-- Characters matched by `\s` in a JavaScript regular expression. -/
def isJsSpace (c : Char) : Bool :=
  c.val == 0x09 || c.val == 0x0A || c.val == 0x0B || c.val == 0x0C || c.val == 0x0D ||
  c.val == 0x20 || c.val == 0xA0 || c.val == 0x1680 ||
  (0x2000 ≤ c.val && c.val ≤ 0x200A) ||
  c.val == 0x2028 || c.val == 0x2029 || c.val == 0x202F || c.val == 0x205F ||
  c.val == 0x3000 || c.val == 0xFEFF

/-- The `trim()` sanitizer: strips whitespace at both ends. -/
def trim (s : String) : String :=
  String.mk ((s.data.dropWhile isJsSpace).reverse.dropWhile isJsSpace).reverse

/-- The `notEmpty()` validator. -/
def notEmpty (s : String) : Bool := !s.data.isEmpty

/-- The phone number check `matches(/^\+91[0-9]{10}$/)`. -/
def validPhone (s : String) : Bool :=
  match s.data with
  | '+' :: '9' :: '1' :: ds => ds.length == 10 && ds.all Char.isDigit
  | _ => false

/-- The passcode check `matches(/^[0-9]{6}$/)`. -/
def validOtp (s : String) : Bool :=
  s.data.length == 6 && s.data.all Char.isDigit

/-! ## routes/auth.js -/

/-- Generator of a 6-digit OTP: `Math.floor(100000 + Math.random() * 900000).toString()`,
the product and the sum each rounded to a double; for `Math.random()` in `[0, 1)`
both stay far inside the finite range. -/
def generateOTP (random : ℚ) : String :=
  toString (Rat.floor (roundFinite (100000 + roundFinite (random * 900000))))

/-- Standardized error response `sendError(res, status, message)`. -/
def sendError (status : Nat) (message : String) : Response :=
  { status := status, success := false, message := message, token := none }

/-- Answer `res.status(200).json({ success: true, message: 'OTP sent successfully' })`. -/
def otpSent : Response :=
  { status := 200, success := true, message := "OTP sent successfully", token := none }

/-- Call `jwt.sign({ id, phoneNumber }, JWT_SECRET, { expiresIn: '1h' })`: the claims of
the token, issued at `floor(now / 1000)` seconds and expiring 3600 seconds later. -/
def signToken (f : Farmer) (now : Int) : Token :=
  { id := f.id, phoneNumber := f.phoneNumber, exp := now / 1000 + 3600 }

/-- Answer `res.status(200).json({ success: true, message: 'OTP verified successfully', token })`
for the farmer the token is signed for. -/
def otpVerified (f : Farmer) (now : Int) : Response :=
  { status := 200, success := true, message := "OTP verified successfully",
    token := some (signToken f now) }

/-- Signup route, `POST /signup`. -/
def signup (dir : Directory) (env : Env) (body : SignupBody) : Response × Directory :=
  let name := trim body.name
  let district := trim body.district
  if !(notEmpty name && validPhone body.phoneNumber && notEmpty district) then
    (sendError 400 "Validation failed", dir)
  else
    match findOne dir body.phoneNumber with
    | some _ => (sendError 400 "Farmer already exists", dir)
    | none =>
      let otp := generateOTP env.random
      let otpExpires := env.now + 10 * 60 * 1000
      let farmer : Farmer :=
        { id := env.oid, name := name, phoneNumber := body.phoneNumber,
          district := district, otp := some otp, otpExpires := some otpExpires }
      match insertOne dir farmer with
      | .error _ => (sendError 500 "Server error during signup", dir)
      | .ok dir' => (otpSent, dir')

/-- Login route, `POST /login`. -/
def login (dir : Directory) (env : Env) (body : LoginBody) : Response × Directory :=
  if !(validPhone body.phoneNumber) then
    (sendError 400 "Validation failed", dir)
  else
    match findOne dir body.phoneNumber with
    | none => (sendError 400 "Farmer not found", dir)
    | some farmer =>
      let otp := generateOTP env.random
      let otpExpires := env.now + 10 * 60 * 1000
      (otpSent, updateOne dir { farmer with otp := some otp, otpExpires := some otpExpires })

/-- The comparison `farmer.otpExpires < Date.now()`; an absent date compares false. -/
def expiredAt (otpExpires : Option Int) (now : Int) : Bool :=
  match otpExpires with
  | some e => decide (e < now)
  | none => false

/-- Verify OTP route, `POST /verify-otp`. -/
def verifyOtp (dir : Directory) (env : Env) (body : VerifyBody) : Response × Directory :=
  if !(validPhone body.phoneNumber && validOtp body.otp) then
    (sendError 400 "Validation failed", dir)
  else
    match findOne dir body.phoneNumber with
    | none => (sendError 400 "Farmer not found", dir)
    | some farmer =>
      if farmer.otp ≠ some body.otp || expiredAt farmer.otpExpires env.now then
        (sendError 400 "Invalid or expired OTP", dir)
      else
        let cleared : Farmer := { farmer with otp := none, otpExpires := none }
        (otpVerified cleared env.now, updateOne dir cleared)

/-- An OTP was issued for `phone`: a signup or a login answered `OTP sent successfully`
and left the directory `dir1`. -/
def Issued (dir : Directory) (env : Env) (phone : String) (dir1 : Directory) : Prop :=
  (∃ name district, signup dir env ⟨name, phone, district⟩ =
    ({ status := 200, success := true, message := "OTP sent successfully", token := none },
     dir1)) ∨
  login dir env ⟨phone⟩ =
    ({ status := 200, success := true, message := "OTP sent successfully", token := none },
     dir1)

/-! ## routes/recommendation.js: the recommendation engine -/

/-- A reading of the climate data: a JavaScript number, or `undefined` when the
weather payload carried no such field. -/
inductive Reading where
  | num (q : ℚ)
  | undefined
deriving DecidableEq

/-- The comparison `x > k` of JavaScript; `undefined > k` is false. -/
def Reading.gt (x : Reading) (k : ℚ) : Bool :=
  match x with
  | .num q => decide (k < q)
  | .undefined => false

/-- The comparison `x < k` of JavaScript; `undefined < k` is false. -/
def Reading.lt (x : Reading) (k : ℚ) : Bool :=
  match x with
  | .num q => decide (q < k)
  | .undefined => false

/-- The object `{ temperature, humidity }` handed to the engine and kept in the cache. -/
structure ClimateData where
  temperature : Reading
  humidity : Reading
deriving DecidableEq

/-- The object `recommendations` built by the engine. -/
structure Recommendations where
  crops : List String
  fertilizers : List String
  profit : JsNumber
  reason : String
deriving DecidableEq

/-- The condition `temperature > 35 || humidity < 20` of the irrigation adjustment. -/
def stressed (climateData : ClimateData) : Bool :=
  climateData.temperature.gt 35 || climateData.humidity.lt 20

/-- Sentence appended to the reason by the irrigation adjustment. -/
def irrigationCaveat : String := " High temperature or low humidity requires irrigation."

/-- Crop recommendation logic `getCropRecommendations(soilType, climateData)`: the pair `{ recommendations, season }`. -/
def getCropRecommendations (soilType : String) (climateData : ClimateData) :
    Recommendations × String :=
  let temperature := climateData.temperature
  let season :=
    if temperature.gt 30 then "Summer" else if temperature.lt 20 then "Winter" else "Monsoon"
  let recommendations : Recommendations :=
    if soilType = "Sandy" then
      { crops := ["Millets", "Groundnuts"], fertilizers := ["Urea", "Potash"], profit := 50000,
        reason := "Sandy soil drains quickly, suitable for drought-resistant crops like millets." }
    else if soilType = "Clay" then
      { crops := ["Rice", "Wheat"], fertilizers := ["Compost", "Phosphate"], profit := 60000,
        reason := "Clay soil retains water, ideal for rice and wheat." }
    else if soilType = "Loamy" then
      { crops := ["Maize", "Vegetables"], fertilizers := ["NPK", "Organic Compost"],
        profit := 70000,
        reason := "Loamy soil is fertile and well-balanced, good for a variety of crops." }
    else if soilType = "Silty" then
      { crops := ["Barley", "Potatoes"], fertilizers := ["Potash", "Lime"], profit := 55000,
        reason := "Silty soil is smooth and retains moisture, suitable for barley and potatoes." }
    else if soilType = "Peaty" then
      { crops := ["Berries", "Pasture Grass"], fertilizers := ["Lime", "Phosphate"],
        profit := 45000,
        reason := "Peaty soil is acidic and organic-rich, good for berries and grasses." }
    else
      { crops := [], fertilizers := [], profit := 0, reason := "Unknown soil type." }
  let recommendations : Recommendations :=
    if stressed climateData then
      { recommendations with
        crops := recommendations.crops.map (fun crop => crop ++ " (with irrigation)"),
        reason := recommendations.reason ++ irrigationCaveat }
    else recommendations
  (recommendations, season)

/-- Rounding `Math.round(x)`: the nearest integer, a tie going upwards; an infinity
and `NaN` are returned as they are. -/
def mathRound (x : JsNumber) : JsNumber :=
  match x with
  | .fin q => .fin (Rat.floor (q + 1 / 2) : ℚ)
  | .inf negative => .inf negative
  | .nan => .nan

/-- The product `profit * acres` of a number and the `acres` of the request body,
rounded to a double. -/
def jsMul (profit : JsNumber) (acres : ℚ) : JsNumber :=
  match profit with
  | .fin q => roundDouble (q * acres)
  | .inf negative =>
    if acres = 0 then .nan else .inf (negative != decide (acres < 0))
  | .nan => .nan

/-- Lines 129-130 of the route: the engine run on the climate data, then
`recommendations.profit = Math.round(recommendations.profit * acres)`. -/
def recommend (soilType : String) (climateData : ClimateData) (acres : ℚ) :
    Recommendations × String :=
  let (recommendations, season) := getCropRecommendations soilType climateData
  ({ recommendations with profit := mathRound (jsMul recommendations.profit acres) }, season)

/-- The soil types the table knows. -/
def knownSoils : List String := ["Sandy", "Clay", "Loamy", "Silty", "Peaty"]

/-! ## routes/recommendation.js: the weather cache and the route -/

/-- An entry of the `NodeCache`: the stored value and the instant `t` (milliseconds)
after which it is expired. -/
structure CacheEntry where
  key : String
  v : ClimateData
  t : Int
deriving DecidableEq

/-- The process-wide `cache = new NodeCache({ stdTTL: 3600 })`, at most one entry per key. -/
abbrev Cache := List CacheEntry

/-- The `stdTTL` of the cache, in seconds. -/
def stdTTL : Int := 3600

/-- Removal of a key from the cache. -/
def cacheDel (cache : Cache) (key : String) : Cache :=
  cache.filter (fun e => e.key != key)

/-- Call `cache.get(key)` at time `now`: the value of a present entry unless
`t !== 0 && t < now`, in which case the entry is expired, deleted and missed. -/
def cacheGet (cache : Cache) (now : Int) (key : String) : Option ClimateData × Cache :=
  match cache.find? (fun e => e.key == key) with
  | none => (none, cache)
  | some e =>
    if e.t ≠ 0 && decide (e.t < now) then (none, cacheDel cache key)
    else (some e.v, cache)

/-- Call `cache.set(key, value)` at time `now`: the entry replaces any entry of the key and
expires `stdTTL * 1000` milliseconds later. -/
def cacheSet (cache : Cache) (now : Int) (key : String) (value : ClimateData) : Cache :=
  { key := key, v := value, t := now + stdTTL * 1000 } :: cacheDel cache key

/-- The `main` section of a weather payload. -/
structure MainSection where
  temp : Reading
  humidity : Reading
deriving DecidableEq

/-- Outcome of `axios.get` on the weather provider: a rejection (network error,
timeout, status outside 2xx), or a response whose `data.main` is present or not. -/
inductive ProviderResult where
  | failure
  | response (main : Option MainSection)
deriving DecidableEq

/-- Fallback climate data of the `catch` branch. -/
def fallbackClimate : ClimateData := { temperature := .num 25, humidity := .num 60 }

/-- The inner `try`/`catch` of the route: the climate data read off the provider's
answer for the district; reading `data.main.temp` throws when `main` is missing, and
every throw ends in the fallback. -/
def fetchClimate (provider : String → ProviderResult) (district : String) : ClimateData :=
  match provider district with
  | .response (some main) => { temperature := main.temp, humidity := main.humidity }
  | .response none => fallbackClimate
  | .failure => fallbackClimate

/-- Result of the climate lookup of a request: the climate data (none when the route
answers 404), the cache it leaves, and the districts asked of the provider. -/
structure Lookup where
  climate : Option ClimateData
  cache : Cache
  fetched : List String
deriving DecidableEq

/-- The cache key of a farmer. -/
def cacheKey (phoneNumber : String) : String := "weather_" ++ phoneNumber

/-- Lines 97-127 of the route: the cached climate data of the farmer, or on a miss
the data fetched for the farmer's district (or the fallback), stored under the key. -/
def getClimate (dir : Directory) (cache : Cache) (now : Int)
    (provider : String → ProviderResult) (user : Token) : Lookup :=
  match cacheGet cache now (cacheKey user.phoneNumber) with
  | (some climateData, cache1) => { climate := some climateData, cache := cache1, fetched := [] }
  | (none, cache1) =>
    match findById dir user.id with
    | none => { climate := none, cache := cache1, fetched := [] }
    | some farmer =>
      let climateData := fetchClimate provider farmer.district
      { climate := some climateData,
        cache := cacheSet cache1 now (cacheKey user.phoneNumber) climateData,
        fetched := [farmer.district] }

/-- Body of `POST /api/recommendation`. -/
structure RecommendationBody where
  soilType : String
  acres : ℚ
deriving DecidableEq

/-- Answer of the recommendation route. -/
inductive RecommendationResponse where
  | error (status : Nat) (message : String)
  | ok (soilType : String) (climateData : ClimateData) (season : String)
      (recommendations : Recommendations)
deriving DecidableEq

/-- The messages of the validation chain `soilType` is in the known list, `acres` is
a float of at least 0.01. -/
def recommendationErrors (body : RecommendationBody) : List String :=
  (if knownSoils.contains body.soilType then [] else ["Invalid soil type"]) ++
  (if 1 / 100 ≤ body.acres then [] else ["Acres must be a positive number"])

/-- Recommendation route, `POST /api/recommendation`, for an authenticated user, at time `now`. -/
def postRecommendation (dir : Directory) (cache : Cache) (now : Int)
    (provider : String → ProviderResult) (user : Token) (body : RecommendationBody) :
    RecommendationResponse × Cache × List String :=
  if !(recommendationErrors body).isEmpty then
    (.error 400 ("Validation failed: " ++ ", ".intercalate (recommendationErrors body)),
     cache, [])
  else
    let lookup := getClimate dir cache now provider user
    match lookup.climate with
    | none => (.error 404 "Farmer not found", lookup.cache, lookup.fetched)
    | some climateData =>
      let (recommendations, season) := recommend body.soilType climateData body.acres
      (.ok body.soilType climateData season recommendations, lookup.cache, lookup.fetched)

/-- A later request to the cache: its time, the directory and the provider it meets,
and the authenticated user. -/
structure LookupRequest where
  now : Int
  dir : Directory
  provider : String → ProviderResult
  user : Token

/-- The cache left by a sequence of climate lookups, in order. -/
def runLookups (cache : Cache) (requests : List LookupRequest) : Cache :=
  requests.foldl (fun c r => (getClimate r.dir c r.now r.provider r.user).cache) cache

/-! ## Request traces of routes/auth.js -/

/-- A request to one of the three OTP routes, with the environment it is served in. -/
inductive AuthRequest where
  | signup (env : Env) (body : SignupBody)
  | login (env : Env) (body : LoginBody)
  | verifyOtp (env : Env) (body : VerifyBody)
deriving DecidableEq

/-- The directory after a request is served, whatever the response. -/
def authStep (dir : Directory) (request : AuthRequest) : Directory :=
  match request with
  | .signup env body => (signup dir env body).2
  | .login env body => (login dir env body).2
  | .verifyOtp env body => (verifyOtp dir env body).2

/-- The directory after a sequence of requests, served in order. -/
def runAuth (dir : Directory) (requests : List AuthRequest) : Directory :=
  requests.foldl authStep dir

/-- The pairing of the OTP paths of a record: both present or both absent. -/
def otpPaired (f : Farmer) : Bool :=
  f.otp.isSome == f.otpExpires.isSome

/-! # Theorems -/

/-! ## Helper lemmas: rounding to a double -/

theorem rat_floor_eq (x : ℚ) : Rat.floor x = ⌊x⌋ := rfl

theorem roundHalfEven_cases (x : ℚ) :
    (roundHalfEven x = ⌊x⌋ ∧ x - ⌊x⌋ ≤ 1 / 2) ∨
    (roundHalfEven x = ⌊x⌋ + 1 ∧ 1 / 2 ≤ x - ⌊x⌋) := by
  unfold roundHalfEven
  simp only [rat_floor_eq]
  split_ifs with h1 h2 h3
  · exact Or.inl ⟨rfl, le_of_lt h1⟩
  · exact Or.inr ⟨rfl, le_of_lt h2⟩
  · exact Or.inl ⟨rfl, le_of_not_lt h2⟩
  · exact Or.inr ⟨rfl, le_of_not_lt h1⟩

theorem roundHalfEven_le (x : ℚ) (N : Int) (h : x < N + 1 / 2) : roundHalfEven x ≤ N := by
  have hfl : (⌊x⌋ : ℚ) ≤ x := Int.floor_le x
  rcases roundHalfEven_cases x with ⟨hr, _⟩ | ⟨hr, hfrac⟩
  · rw [hr]
    have : (⌊x⌋ : ℚ) < (N : ℚ) + 1 := by linarith
    have : ⌊x⌋ < N + 1 := by exact_mod_cast this
    omega
  · rw [hr]
    have : (⌊x⌋ : ℚ) < (N : ℚ) := by linarith
    have : ⌊x⌋ < N := by exact_mod_cast this
    omega

theorem roundHalfEven_ge (x : ℚ) (N : Int) (h : (N : ℚ) - 1 / 2 < x) : N ≤ roundHalfEven x := by
  have hfl : x < (⌊x⌋ : ℚ) + 1 := Int.lt_floor_add_one x
  rcases roundHalfEven_cases x with ⟨hr, hfrac⟩ | ⟨hr, _⟩
  · rw [hr]
    have : (N : ℚ) - 1 < (⌊x⌋ : ℚ) := by linarith
    have : N - 1 < ⌊x⌋ := by exact_mod_cast this
    omega
  · rw [hr]
    have : (N : ℚ) - 2 < (⌊x⌋ : ℚ) := by linarith
    have : N - 2 < ⌊x⌋ := by exact_mod_cast this
    omega

/-- The rounded integer is within one half of the rational. -/
theorem roundHalfEven_dist (x : ℚ) : |(roundHalfEven x : ℚ) - x| ≤ 1 / 2 := by
  have hfl : (⌊x⌋ : ℚ) ≤ x := Int.floor_le x
  have hlt : x < (⌊x⌋ : ℚ) + 1 := Int.lt_floor_add_one x
  rw [abs_le]
  rcases roundHalfEven_cases x with ⟨hr, hfrac⟩ | ⟨hr, hfrac⟩
  · rw [hr]; constructor <;> linarith
  · rw [hr]; push_cast; constructor <;> linarith

theorem roundHalfEven_intCast (N : Int) : roundHalfEven (N : ℚ) = N :=
  le_antisymm (roundHalfEven_le _ N (by linarith)) (roundHalfEven_ge _ N (by linarith))

theorem ulpExponent_le (x : ℚ) (q : Int) (hx0 : x ≠ 0) (hq : -1074 ≤ q)
    (hx : |x| < 2 ^ (q + 53)) : ulpExponent x ≤ q := by
  have hpos : 0 < |x| := abs_pos.mpr hx0
  have hlog : Int.log 2 |x| < q + 53 := by
    rw [← Int.lt_zpow_iff_log_lt (by norm_num) hpos]
    exact_mod_cast hx
  unfold ulpExponent
  have := max_le (a := Int.log 2 |x|) (b := -1022) (c := q + 52) (by omega) (by omega)
  omega

theorem ulpExponent_eq (x : ℚ) (e : Int) (he : -1022 ≤ e) (h1 : 2 ^ e ≤ |x|)
    (h2 : |x| < 2 ^ (e + 1)) : ulpExponent x = e - 52 := by
  have hpos : 0 < |x| := lt_of_lt_of_le (by positivity) h1
  have hlo : e ≤ Int.log 2 |x| := by
    rw [← Int.zpow_le_iff_le_log (by norm_num) hpos]
    exact_mod_cast h1
  have hhi : Int.log 2 |x| < e + 1 := by
    rw [← Int.lt_zpow_iff_log_lt (by norm_num) hpos]
    exact_mod_cast h2
  unfold ulpExponent
  have : Int.log 2 |x| = e := by omega
  rw [this, max_eq_left he]

theorem roundFinite_zero : roundFinite 0 = 0 := by
  unfold roundFinite
  rw [zero_div]
  have := roundHalfEven_intCast 0
  simp only [Int.cast_zero] at this
  rw [this]; simp

/-- A multiple of `2 ^ q` is a multiple of every finer `2 ^ E`. -/
theorem grid_refine (N q E : Int) (h : E ≤ q) :
    ∃ N' : Int, (N : ℚ) * 2 ^ q = N' * 2 ^ E := by
  obtain ⟨k, hk⟩ : ∃ k : ℕ, q = E + k := ⟨(q - E).toNat, by omega⟩
  refine ⟨N * 2 ^ k, ?_⟩
  rw [hk, zpow_add₀ (by norm_num : (2 : ℚ) ≠ 0), zpow_natCast]
  push_cast
  ring

theorem roundFinite_le (x d : ℚ) (N q : Int) (hd : d = N * 2 ^ q) (hq : -1074 ≤ q)
    (hx : |x| < 2 ^ (q + 53)) (hxd : x ≤ d) : roundFinite x ≤ d := by
  by_cases hx0 : x = 0
  · rw [hx0, roundFinite_zero]; rw [hx0] at hxd; exact hxd
  · obtain ⟨N', hN'⟩ := grid_refine N q (ulpExponent x) (ulpExponent_le x q hx0 hq hx)
    have hpow : (0 : ℚ) < 2 ^ ulpExponent x := by positivity
    unfold roundFinite
    rw [hd, hN']
    apply mul_le_mul_of_nonneg_right _ (le_of_lt hpow)
    have : x / 2 ^ ulpExponent x ≤ N' := by
      rw [div_le_iff₀ hpow, ← hN', ← hd]; exact hxd
    exact_mod_cast roundHalfEven_le _ N' (by linarith)

theorem roundFinite_ge (x d : ℚ) (N q : Int) (hd : d = N * 2 ^ q) (hq : -1074 ≤ q)
    (hx : |x| < 2 ^ (q + 53)) (hxd : d ≤ x) : d ≤ roundFinite x := by
  by_cases hx0 : x = 0
  · rw [hx0, roundFinite_zero]; rw [hx0] at hxd; exact hxd
  · obtain ⟨N', hN'⟩ := grid_refine N q (ulpExponent x) (ulpExponent_le x q hx0 hq hx)
    have hpow : (0 : ℚ) < 2 ^ ulpExponent x := by positivity
    unfold roundFinite
    rw [hd, hN']
    apply mul_le_mul_of_nonneg_right _ (le_of_lt hpow)
    have : (N' : ℚ) ≤ x / 2 ^ ulpExponent x := by
      rw [le_div_iff₀ hpow, ← hN', ← hd]; exact hxd
    exact_mod_cast roundHalfEven_ge _ N' (by linarith)

/-- Doubles are fixed points of the rounding. -/
theorem roundFinite_grid (N q : Int) (hq : -1074 ≤ q) (hN : |N| < 2 ^ 53) :
    roundFinite (N * 2 ^ q) = N * 2 ^ q := by
  have hx : |(N : ℚ) * 2 ^ q| < 2 ^ (q + 53) := by
    rw [abs_mul, abs_of_pos (by positivity : (0 : ℚ) < 2 ^ q), add_comm,
      zpow_add₀ (by norm_num : (2 : ℚ) ≠ 0)]
    apply mul_lt_mul_of_pos_right _ (by positivity)
    have h53 : ((|N| : Int) : ℚ) < ((2 ^ 53 : Int) : ℚ) := by exact_mod_cast hN
    rw [Int.cast_abs] at h53
    calc |(N : ℚ)| < ((2 ^ 53 : Int) : ℚ) := h53
      _ = 2 ^ (53 : Int) := by norm_num
  exact le_antisymm (roundFinite_le _ _ N q rfl hq hx le_rfl)
    (roundFinite_ge _ _ N q rfl hq hx le_rfl)

/-- The rounding error is at most half the spacing of the doubles around `x`. -/
theorem roundFinite_dist (x : ℚ) : |roundFinite x - x| ≤ 2 ^ ulpExponent x / 2 := by
  have hpow : (0 : ℚ) < 2 ^ ulpExponent x := by positivity
  have h := roundHalfEven_dist (x / 2 ^ ulpExponent x)
  have e : roundFinite x - x =
      ((roundHalfEven (x / 2 ^ ulpExponent x) : ℚ) - x / 2 ^ ulpExponent x) *
        2 ^ ulpExponent x := by
    unfold roundFinite
    field_simp
  rw [e, abs_mul, abs_of_pos hpow]
  have := mul_le_mul_of_nonneg_right h (le_of_lt hpow)
  linarith

theorem roundFinite_binade (x : ℚ) (e : Int) (he : -1022 ≤ e) (h1 : 2 ^ e ≤ |x|)
    (h2 : |x| < 2 ^ (e + 1)) :
    roundFinite x = roundHalfEven (x / 2 ^ (e - 52)) * 2 ^ (e - 52) := by
  unfold roundFinite
  rw [ulpExponent_eq x e he h1 h2]

theorem unit_double_le (r : ℚ) (hd : roundFinite r = r) (h1 : r < 1) :
    r ≤ 1 - 1 / 2 ^ 53 := by
  by_contra hcon
  have hgt : 1 - 1 / 2 ^ 53 < r := lt_of_not_le hcon
  have hpos : 0 < r := lt_trans (by norm_num) hgt
  have habs : |r| = r := abs_of_pos hpos
  have hb := roundFinite_binade r (-1) (by norm_num)
    (by rw [habs]; norm_num; linarith) (by rw [habs]; norm_num; exact h1)
  rw [hd] at hb
  have hpow : (2 : ℚ) ^ ((-1 : Int) - 52) = 1 / 2 ^ 53 := by norm_num
  rw [hpow] at hb
  set M := roundHalfEven (r / (1 / 2 ^ 53)) with hM
  have hMlt : (M : ℚ) < ((2 ^ 53 : Int) : ℚ) := by
    have : (M : ℚ) * (1 / 2 ^ 53) < 1 := by rw [← hb]; exact h1
    push_cast
    linarith [mul_lt_mul_of_pos_right this (by norm_num : (0 : ℚ) < 2 ^ 53)]
  have hMle : M ≤ 2 ^ 53 - 1 := by
    have : M < 2 ^ 53 := by exact_mod_cast hMlt
    omega
  have hMle' : (M : ℚ) ≤ 2 ^ 53 - 1 := by exact_mod_cast hMle
  have : r ≤ 1 - 1 / 2 ^ 53 := by
    rw [hb]
    have := mul_le_mul_of_nonneg_right hMle' (by norm_num : (0 : ℚ) ≤ 1 / 2 ^ 53)
    linarith
  exact hcon this

/-- The product `Math.random() * 900000`, rounded, stays below 900000. -/
theorem product_range (r : ℚ) (hd : roundFinite r = r) (h0 : 0 ≤ r) (h1 : r < 1) :
    0 ≤ roundFinite (r * 900000) ∧ roundFinite (r * 900000) ≤ 900000 - 1 / 2 ^ 33 := by
  have hr := unit_double_le r hd h1
  have hx0 : 0 ≤ r * 900000 := by positivity
  have hxmax : r * 900000 ≤ 900000 - 900000 / 2 ^ 53 := by linarith
  have habs : |r * 900000| = r * 900000 := abs_of_nonneg hx0
  have hlt : |r * 900000| < 2 ^ ((-33 : Int) + 53) := by
    rw [habs]; norm_num; linarith
  constructor
  · exact roundFinite_ge _ 0 0 (-33) (by simp) (by norm_num) hlt hx0
  · by_cases hle : r * 900000 ≤ 900000 - 1 / 2 ^ 33
    · exact roundFinite_le _ _ (900000 * 2 ^ 33 - 1) (-33) (by norm_num) (by norm_num) hlt hle
    · have hgt : 900000 - 1 / 2 ^ 33 < r * 900000 := lt_of_not_le hle
      have hb := roundFinite_binade (r * 900000) 19 (by norm_num)
        (by rw [habs]; norm_num; linarith) (by rw [habs]; norm_num; linarith)
      rw [hb]
      have hpow : (2 : ℚ) ^ ((19 : Int) - 52) = 1 / 2 ^ 33 := by norm_num
      rw [hpow]
      have hM : roundHalfEven (r * 900000 / (1 / 2 ^ 33)) ≤ 900000 * 2 ^ 33 - 1 := by
        apply roundHalfEven_le
        rw [div_lt_iff₀ (by norm_num)]
        push_cast
        linarith
      have hM' : (roundHalfEven (r * 900000 / (1 / 2 ^ 33)) : ℚ) ≤ 900000 * 2 ^ 33 - 1 := by
        exact_mod_cast hM
      have := mul_le_mul_of_nonneg_right hM' (by norm_num : (0 : ℚ) ≤ 1 / 2 ^ 33)
      linarith

/-- The sum `100000 + Math.random() * 900000`, rounded, lies in `[100000, 1000000)`. -/
theorem sum_range (r : ℚ) (hd : roundFinite r = r) (h0 : 0 ≤ r) (h1 : r < 1) :
    100000 ≤ roundFinite (100000 + roundFinite (r * 900000)) ∧
    roundFinite (100000 + roundFinite (r * 900000)) < 1000000 := by
  obtain ⟨hp0, hp1⟩ := product_range r hd h0 h1
  set p := roundFinite (r * 900000)
  have habs : |100000 + p| = 100000 + p := abs_of_nonneg (by linarith)
  have hlt : |100000 + p| < 2 ^ ((-33 : Int) + 53) := by
    rw [habs]; norm_num; linarith
  constructor
  · exact roundFinite_ge _ _ (100000 * 2 ^ 33) (-33) (by norm_num) (by norm_num) hlt
      (by linarith)
  · have := roundFinite_le (100000 + p) (1000000 - 1 / 2 ^ 33) (1000000 * 2 ^ 33 - 1) (-33)
      (by norm_num) (by norm_num) hlt (by linarith)
    linarith [show (0 : ℚ) < 1 / 2 ^ 33 by norm_num]

theorem isDouble_fixed (x : ℚ) (h : isDouble x) : roundFinite x = x := by
  unfold isDouble roundDouble at h
  split at h
  · simpa using h
  · cases h

theorem roundFinite_eq_of (x : ℚ) (e N : Int) (he : -1022 ≤ e) (h1 : 2 ^ e ≤ |x|)
    (h2 : |x| < 2 ^ (e + 1)) (hlo : (N : ℚ) - 1 / 2 < x / 2 ^ (e - 52))
    (hhi : x / 2 ^ (e - 52) < N + 1 / 2) : roundFinite x = N * 2 ^ (e - 52) := by
  rw [roundFinite_binade x e he h1 h2,
    le_antisymm (roundHalfEven_le _ N hhi) (roundHalfEven_ge _ N hlo)]

theorem roundDouble_intCast (z : Int) (hz : |z| < 2 ^ 53) : roundDouble z = .fin z := by
  have hfix : roundFinite (z : ℚ) = z := by
    have := roundFinite_grid z 0 (by norm_num) hz
    simpa using this
  have hlt : |(z : ℚ)| < 2 ^ 1024 := by
    have h53 : ((|z| : Int) : ℚ) < ((2 ^ 53 : Int) : ℚ) := by exact_mod_cast hz
    rw [Int.cast_abs] at h53
    calc |(z : ℚ)| < ((2 ^ 53 : Int) : ℚ) := h53
      _ < 2 ^ 1024 := by norm_num
  unfold roundDouble
  rw [hfix, if_pos hlt]


/-! ## Decimal rendering of a six-digit number -/

theorem digitChar_isDigit (k : Nat) (h : k < 10) : (Nat.digitChar k).isDigit = true := by
  interval_cases k <;> decide

theorem toDigits_six (n : Nat) (h1 : 100000 ≤ n) (h2 : n ≤ 999999) :
    Nat.toDigits 10 n =
      [Nat.digitChar (n / 100000 % 10), Nat.digitChar (n / 10000 % 10),
       Nat.digitChar (n / 1000 % 10), Nat.digitChar (n / 100 % 10),
       Nat.digitChar (n / 10 % 10), Nat.digitChar (n % 10)] := by
  obtain ⟨m, rfl⟩ : ∃ m, n = m + 6 := ⟨n - 6, by omega⟩
  have e1 : (m + 6) / 10 ≠ 0 := by omega
  have e2 : (m + 6) / 10 / 10 ≠ 0 := by omega
  have e3 : (m + 6) / 10 / 10 / 10 ≠ 0 := by omega
  have e4 : (m + 6) / 10 / 10 / 10 / 10 ≠ 0 := by omega
  have e5 : (m + 6) / 10 / 10 / 10 / 10 / 10 ≠ 0 := by omega
  have e6 : (m + 6) / 10 / 10 / 10 / 10 / 10 / 10 = 0 := by omega
  have d2 : (m + 6) / 100 = (m + 6) / 10 / 10 := by omega
  have d3 : (m + 6) / 1000 = (m + 6) / 10 / 10 / 10 := by omega
  have d4 : (m + 6) / 10000 = (m + 6) / 10 / 10 / 10 / 10 := by omega
  have d5 : (m + 6) / 100000 = (m + 6) / 10 / 10 / 10 / 10 / 10 := by omega
  rw [d2, d3, d4, d5]
  show Nat.toDigitsCore 10 (m + 6 + 1) (m + 6) [] = _
  simp only [Nat.toDigitsCore, e1, e2, e3, e4, e5, e6, if_true, if_false]


/-! ## Helper lemmas: the passcode generator -/

theorem generateOTP_floor (r : ℚ) (hd : isDouble r) (h0 : 0 ≤ r) (h1 : r < 1) :
    ∃ n : Nat, 100000 ≤ n ∧ n ≤ 999999 ∧
      Rat.floor (roundFinite (100000 + roundFinite (r * 900000))) = (n : Int) := by
  obtain ⟨hs0, hs1⟩ := sum_range r (isDouble_fixed r hd) h0 h1
  have hlo : (100000 : Int) ≤ Rat.floor (roundFinite (100000 + roundFinite (r * 900000))) := by
    rw [Rat.le_floor]; push_cast; exact hs0
  have hhi : Rat.floor (roundFinite (100000 + roundFinite (r * 900000))) < (1000000 : Int) := by
    show ⌊roundFinite (100000 + roundFinite (r * 900000))⌋ < (1000000 : Int)
    rw [Int.floor_lt]; push_cast; exact hs1
  refine ⟨(Rat.floor (roundFinite (100000 + roundFinite (r * 900000)))).toNat, ?_, ?_, ?_⟩ <;>
    omega

theorem toString_natCast (n : Nat) : toString (n : Int) = String.mk (Nat.toDigits 10 n) := rfl

theorem validOtp_six (n : Nat) (h1 : 100000 ≤ n) (h2 : n ≤ 999999) :
    validOtp (toString (n : Int)) = true := by
  rw [toString_natCast, validOtp, toDigits_six n h1 h2]
  simp [digitChar_isDigit, Nat.mod_lt]

theorem validOtp_generateOTP (r : ℚ) (hd : isDouble r) (h0 : 0 ≤ r) (h1 : r < 1) :
    validOtp (generateOTP r) = true := by
  obtain ⟨n, hlo, hhi, hn⟩ := generateOTP_floor r hd h0 h1
  unfold generateOTP
  rw [hn]
  exact validOtp_six n hlo hhi

/-! ## Helper lemmas: lookups after a save -/

theorem findOne_updateOne (dir : Directory) (p : String) (f g : Farmer)
    (hf : findOne dir p = some f) (hid : g.id = f.id) (hp : g.phoneNumber = p) :
    findOne (updateOne dir g) p = some g := by
  induction dir with
  | nil => simp [findOne] at hf
  | cons a rest ih =>
    unfold findOne updateOne at *
    simp only [List.map_cons, List.find?_cons] at hf ⊢
    have hg : (g.phoneNumber == p) = true := by simp [hp]
    by_cases ha : a.phoneNumber = p
    · have hb : (a.phoneNumber == p) = true := by simp [ha]
      rw [hb] at hf
      have hfa : a = f := by simpa using hf
      subst hfa
      simp [hid, hg]
    · have hb : (a.phoneNumber == p) = false := by simp [ha]
      rw [hb] at hf
      by_cases hag : a.id = g.id
      · simp [hag, hg]
      · simp [hag, hb, ih hf]

theorem findOne_append_none (dir : Directory) (p : String) (g : Farmer)
    (hf : findOne dir p = none) (hp : g.phoneNumber = p) :
    findOne (dir ++ [g]) p = some g := by
  unfold findOne at *
  simp [List.find?_append, hf, hp]

/-! ## Helper lemmas: what a successful issuance leaves behind -/

theorem signup_ok (dir dir1 : Directory) (env : Env) (body : SignupBody)
    (h : signup dir env body = (otpSent, dir1)) :
    validPhone body.phoneNumber = true ∧ findOne dir body.phoneNumber = none ∧
    dir1 = dir ++ [{ id := env.oid, name := trim body.name, phoneNumber := body.phoneNumber,
                     district := trim body.district, otp := some (generateOTP env.random),
                     otpExpires := some (env.now + 600000) }] := by
  unfold signup at h
  simp only [] at h
  split at h
  · simp [sendError, otpSent] at h
  · rename_i hv
    split at h
    · simp [sendError, otpSent] at h
    · rename_i hnone
      unfold insertOne at h
      split at h
      · simp [sendError, otpSent] at h
      · rename_i d hd
        split at hd
        · simp at hd
        · simp only [Except.ok.injEq] at hd
          simp only [Prod.mk.injEq, true_and] at h
          have hv2 : (notEmpty (trim body.name) = true ∧ validPhone body.phoneNumber = true) ∧
              notEmpty (trim body.district) = true := by simpa using hv
          refine ⟨hv2.1.2, hnone, ?_⟩
          rw [← h, ← hd]
          norm_num

theorem login_ok (dir dir1 : Directory) (env : Env) (body : LoginBody)
    (h : login dir env body = (otpSent, dir1)) :
    validPhone body.phoneNumber = true ∧ ∃ f, findOne dir body.phoneNumber = some f ∧
    dir1 = updateOne dir { f with otp := some (generateOTP env.random),
                                  otpExpires := some (env.now + 600000) } := by
  unfold login at h
  split at h
  · simp [sendError, otpSent] at h
  · rename_i hv
    split at h
    · simp [sendError, otpSent] at h
    · rename_i f hf
      simp only [Prod.mk.injEq, true_and] at h
      refine ⟨by simpa using hv, f, hf, ?_⟩
      rw [← h]
      norm_num

theorem findOne_phone (dir : Directory) (p : String) (f : Farmer)
    (h : findOne dir p = some f) : f.phoneNumber = p := by
  have := List.find?_some h
  simpa using this

theorem issued_post (dir dir1 : Directory) (env : Env) (phone : String)
    (h : Issued dir env phone dir1) :
    validPhone phone = true ∧ ∃ g, findOne dir1 phone = some g ∧ g.phoneNumber = phone ∧
      g.otp = some (generateOTP env.random) ∧ g.otpExpires = some (env.now + 600000) ∧
      ∀ f, findOne dir phone = some f →
        g = { f with otp := some (generateOTP env.random),
                     otpExpires := some (env.now + 600000) } := by
  rcases h with ⟨name, district, h⟩ | h
  · obtain ⟨hv, hnone, hd⟩ := signup_ok dir dir1 env _ h
    refine ⟨hv, { id := env.oid, name := trim name, phoneNumber := phone,
                  district := trim district, otp := some (generateOTP env.random),
                  otpExpires := some (env.now + 600000) }, ?_, rfl, rfl, rfl, ?_⟩
    · rw [hd]; exact findOne_append_none dir phone _ hnone rfl
    · intro f hf
      have hnone' : findOne dir phone = none := hnone
      rw [hnone'] at hf; cases hf
  · obtain ⟨hv, f, hf, hd⟩ := login_ok dir dir1 env _ h
    have hp := findOne_phone dir phone f hf
    refine ⟨hv, { f with otp := some (generateOTP env.random),
                         otpExpires := some (env.now + 600000) }, ?_, hp, rfl, rfl, ?_⟩
    · rw [hd]; exact findOne_updateOne dir phone f _ hf rfl hp
    · intro f2 hf2
      have hf' : findOne dir phone = some f := hf
      rw [hf'] at hf2; cases hf2; rfl

/-! ## Helper lemmas: the two outcomes of a well-formed verification -/

theorem verifyOtp_accept (dir : Directory) (env : Env) (phone code : String) (f : Farmer)
    (hphone : validPhone phone = true) (hcode : validOtp code = true)
    (hf : findOne dir phone = some f) (hotp : f.otp = some code)
    (hexp : expiredAt f.otpExpires env.now = false) :
    verifyOtp dir env ⟨phone, code⟩ =
      (otpVerified { f with otp := none, otpExpires := none } env.now,
       updateOne dir { f with otp := none, otpExpires := none }) := by
  simp [verifyOtp, hphone, hcode, hf, hotp, hexp, otpVerified]

theorem verifyOtp_reject (dir : Directory) (env : Env) (phone code : String) (f : Farmer)
    (hphone : validPhone phone = true) (hcode : validOtp code = true)
    (hf : findOne dir phone = some f)
    (hbad : f.otp ≠ some code ∨ expiredAt f.otpExpires env.now = true) :
    verifyOtp dir env ⟨phone, code⟩ = (sendError 400 "Invalid or expired OTP", dir) := by
  rcases hbad with h | h <;> simp [verifyOtp, hphone, hcode, hf, h]

/-! ## Claims about the OTP engine -/

theorem isDouble_grid (N q : Int) (hq : -1074 ≤ q) (hN : |N| < 2 ^ 53)
    (hfin : |(N : ℚ) * 2 ^ q| < 2 ^ 1024) : isDouble (N * 2 ^ q) := by
  unfold isDouble roundDouble
  rw [roundFinite_grid N q hq hN, if_pos hfin]

theorem isDouble_zero : isDouble 0 := by
  have h := isDouble_grid 0 0 (by norm_num) (by norm_num) (by norm_num)
  simpa using h

theorem generateOTP_def (r : ℚ) :
    generateOTP r =
      toString (Rat.floor (roundFinite (100000 + roundFinite (r * 900000)))) := by
  unfold generateOTP
  rfl

theorem generateOTP_zero : generateOTP 0 = "100000" := by
  have h1 : roundFinite ((0 : ℚ) * 900000) = 0 := by
    rw [zero_mul]; exact roundFinite_zero
  have h2 : roundFinite ((100000 : ℚ) + 0) = 100000 := by
    have h := roundFinite_grid 100000 0 (by norm_num) (by norm_num)
    simpa using h
  have h3 : Rat.floor (100000 : ℚ) = 100000 := by
    show ⌊(100000 : ℚ)⌋ = 100000
    rw [Int.floor_eq_iff]; norm_num
  rw [generateOTP_def, h1, h2, h3]
  rfl

/-- C1 (single use): once a signup or a login has issued an OTP for a phone number
(with `Math.random()` a double in `[0, 1)`), the record holds the issued code, and a
verify-otp request carrying that code at a time not later than `otpExpires` is
answered 200 with `success: true`, the message `OTP verified successfully` and a
token for the farmer, and clears the OTP of that record only; a second verify-otp request
with the same code on that directory, at any time, is answered 400 with
`success: false`, the message `Invalid or expired OTP` and no token, and changes
nothing. -/
theorem otp_single_use (dir dir1 : Directory) (env env1 env2 : Env) (phone : String)
    (hd : isDouble env.random) (h0 : 0 ≤ env.random) (h1 : env.random < 1)
    (hissue : Issued dir env phone dir1) (htime : env1.now ≤ env.now + 600000) :
    ∃ g dir2, findOne dir1 phone = some g ∧
      g.otp = some (generateOTP env.random) ∧
      g.otpExpires = some (env.now + 600000) ∧
      verifyOtp dir1 env1 ⟨phone, generateOTP env.random⟩ =
        ({ status := 200, success := true, message := "OTP verified successfully",
           token := some { id := g.id, phoneNumber := phone,
                           exp := env1.now / 1000 + 3600 } },
         dir2) ∧
      dir2 = dir1.map (fun x =>
        if x.id = g.id then { g with otp := none, otpExpires := none } else x) ∧
      findOne dir2 phone = some { g with otp := none, otpExpires := none } ∧
      verifyOtp dir2 env2 ⟨phone, generateOTP env.random⟩ =
        ({ status := 400, success := false, message := "Invalid or expired OTP",
           token := none },
         dir2) := by
  obtain ⟨hv, g, hg, hp, hotp, hexp, -⟩ := issued_post dir dir1 env phone hissue
  have hcode := validOtp_generateOTP env.random hd h0 h1
  have hfind2 := findOne_updateOne dir1 phone g { g with otp := none, otpExpires := none }
    hg rfl hp
  refine ⟨g, updateOne dir1 { g with otp := none, otpExpires := none }, hg, hotp, hexp,
    ?_, rfl, hfind2, ?_⟩
  · rw [verifyOtp_accept dir1 env1 phone _ g hv hcode hg hotp
      (by simp [expiredAt, hexp, htime])]
    simp [otpVerified, signToken, hp]
  · rw [verifyOtp_reject _ env2 phone _ { g with otp := none, otpExpires := none } hv hcode
      hfind2 (Or.inl (by simp))]
    rfl

/-- Witness of C1: a signup on the empty directory at time 0 with draw 0, verified at
the expiry instant 600000 and replayed one millisecond later. -/
theorem otp_single_use_witness :
    Issued [] ⟨0, 0, 1⟩ "+919876543210"
      [⟨1, "Asha", "+919876543210", "Salem", some (generateOTP 0), some 600000⟩] ∧
    ∃ g dir2,
      findOne [⟨1, "Asha", "+919876543210", "Salem", some (generateOTP 0), some 600000⟩]
        "+919876543210" = some g ∧
      g.otp = some (generateOTP 0) ∧
      g.otpExpires = some ((0 : Int) + 600000) ∧
      verifyOtp [⟨1, "Asha", "+919876543210", "Salem", some (generateOTP 0), some 600000⟩]
        ⟨600000, 0, 2⟩ ⟨"+919876543210", generateOTP 0⟩ =
        ({ status := 200, success := true, message := "OTP verified successfully",
           token := some { id := g.id, phoneNumber := "+919876543210",
                           exp := (600000 : Int) / 1000 + 3600 } },
         dir2) ∧
      dir2 =
        [⟨1, "Asha", "+919876543210", "Salem", some (generateOTP 0), some 600000⟩].map
          (fun x => if x.id = g.id then { g with otp := none, otpExpires := none } else x) ∧
      findOne dir2 "+919876543210" = some { g with otp := none, otpExpires := none } ∧
      verifyOtp dir2 ⟨600001, 0, 3⟩ ⟨"+919876543210", generateOTP 0⟩ =
        ({ status := 400, success := false, message := "Invalid or expired OTP",
           token := none },
         dir2) :=
  ⟨Or.inl ⟨"Asha", "Salem", rfl⟩,
   otp_single_use [] _ ⟨0, 0, 1⟩ ⟨600000, 0, 2⟩ ⟨600001, 0, 3⟩ "+919876543210"
    isDouble_zero (le_refl 0) (by norm_num) (Or.inl ⟨"Asha", "Salem", rfl⟩) (by decide)⟩

/-- C2 (expiry boundary): for a farmer with a pending OTP and a well-formed request
submitting the stored code, verification succeeds exactly when `now ≤ otpExpires`:
it succeeds and clears the OTP when `now ≤ otpExpires`, in particular at
`now = otpExpires`, and it is rejected with `Invalid or expired OTP`, leaving the
directory as it was, when `otpExpires < now`, in particular at
`now = otpExpires + 1`. -/
theorem otp_expiry_boundary (dir : Directory) (phone code : String) (f : Farmer) (e : Int)
    (hphone : validPhone phone = true) (hcode : validOtp code = true)
    (hf : findOne dir phone = some f) (hotp : f.otp = some code)
    (hexp : f.otpExpires = some e) :
    (∀ env : Env, env.now ≤ e →
      verifyOtp dir env ⟨phone, code⟩ =
        (otpVerified { f with otp := none, otpExpires := none } env.now,
         updateOne dir { f with otp := none, otpExpires := none })) ∧
    (∀ env : Env, e < env.now →
      verifyOtp dir env ⟨phone, code⟩ = (sendError 400 "Invalid or expired OTP", dir)) ∧
    (∀ env : Env, (verifyOtp dir env ⟨phone, code⟩).1.status = 200 ↔ env.now ≤ e) ∧
    (∀ r oid, (verifyOtp dir ⟨e, r, oid⟩ ⟨phone, code⟩).1 =
      otpVerified { f with otp := none, otpExpires := none } e) ∧
    (∀ r oid, (verifyOtp dir ⟨e + 1, r, oid⟩ ⟨phone, code⟩).1 =
      sendError 400 "Invalid or expired OTP") := by
  have hacc : ∀ env : Env, env.now ≤ e →
      verifyOtp dir env ⟨phone, code⟩ =
        (otpVerified { f with otp := none, otpExpires := none } env.now,
         updateOne dir { f with otp := none, otpExpires := none }) := by
    intro env hle
    apply verifyOtp_accept dir env phone code f hphone hcode hf hotp
    simp [expiredAt, hexp, hle]
  have hrej : ∀ env : Env, e < env.now →
      verifyOtp dir env ⟨phone, code⟩ = (sendError 400 "Invalid or expired OTP", dir) := by
    intro env hlt
    apply verifyOtp_reject dir env phone code f hphone hcode hf
    right; simp [expiredAt, hexp, hlt]
  refine ⟨hacc, hrej, ?_, ?_, ?_⟩
  · intro env
    rcases le_or_lt env.now e with hle | hlt
    · simp [hacc env hle, otpVerified, hle]
    · simp [hrej env hlt, sendError, hlt]
  · intro r oid
    rw [hacc ⟨e, r, oid⟩ (le_refl e)]
  · intro r oid
    rw [hrej ⟨e + 1, r, oid⟩ (by show e < e + 1; omega)]

/-- Witness of C2: a directory holding one farmer with the pending code `123456`
expiring at 600000. -/
theorem otp_expiry_boundary_witness :
    (∀ r oid,
      (verifyOtp [⟨1, "Asha", "+919876543210", "Salem", some "123456", some 600000⟩]
        ⟨600000, r, oid⟩ ⟨"+919876543210", "123456"⟩).1 =
      otpVerified ⟨1, "Asha", "+919876543210", "Salem", none, none⟩ 600000) ∧
    (∀ r oid,
      (verifyOtp [⟨1, "Asha", "+919876543210", "Salem", some "123456", some 600000⟩]
        ⟨600000 + 1, r, oid⟩ ⟨"+919876543210", "123456"⟩).1 =
      sendError 400 "Invalid or expired OTP") :=
  (otp_expiry_boundary [⟨1, "Asha", "+919876543210", "Salem", some "123456", some 600000⟩]
    "+919876543210" "123456" ⟨1, "Asha", "+919876543210", "Salem", some "123456", some 600000⟩
    600000 (by decide) (by decide) (by decide) rfl rfl).2.2.2

/-- C3, counterexample: a farmer holds the pending code `100000`; a login whose random
draw is 0 generates `100000` again, and a verify-otp request submitting the old code
is then accepted. -/
theorem reissue_same_code_accepted :
    findOne [⟨1, "Asha", "+919876543210", "Salem", some "100000", some 600000⟩]
      "+919876543210" = some ⟨1, "Asha", "+919876543210", "Salem", some "100000", some 600000⟩ ∧
    login [⟨1, "Asha", "+919876543210", "Salem", some "100000", some 600000⟩]
      ⟨1000, 0, 0⟩ ⟨"+919876543210"⟩ =
      (otpSent, [⟨1, "Asha", "+919876543210", "Salem", some "100000", some 601000⟩]) ∧
    verifyOtp [⟨1, "Asha", "+919876543210", "Salem", some "100000", some 601000⟩]
      ⟨2000, 0, 0⟩ ⟨"+919876543210", "100000"⟩ =
      (otpVerified ⟨1, "Asha", "+919876543210", "Salem", none, none⟩ 2000,
       [⟨1, "Asha", "+919876543210", "Salem", none, none⟩]) := by
  refine ⟨by decide, ?_, by decide⟩
  have hl : login [⟨1, "Asha", "+919876543210", "Salem", some "100000", some 600000⟩]
      ⟨1000, 0, 0⟩ ⟨"+919876543210"⟩ =
      (otpSent, [⟨1, "Asha", "+919876543210", "Salem", some (generateOTP 0), some 601000⟩]) :=
    rfl
  rw [generateOTP_zero] at hl
  exact hl

/-- C3, amended: for a farmer with a pending OTP with code `c1`, after a login for the
same phone number has issued a new code, a verify-otp request submitting `c1` is
rejected and leaves the directory unchanged whenever the new code differs from `c1`
(with `Invalid or expired OTP` when `c1` is six digits); when the login draws `c1`
again, `c1`, a six-digit code, is the pending code and is accepted up to the new
expiry. -/
theorem reissue_invalidates_old (dir dir1 : Directory) (env env1 : Env)
    (phone c1 : String) (f : Farmer)
    (hf : findOne dir phone = some f) (_hotp : f.otp = some c1)
    (hlogin : login dir env ⟨phone⟩ = (otpSent, dir1)) :
    (generateOTP env.random ≠ c1 →
      (verifyOtp dir1 env1 ⟨phone, c1⟩).1.success = false ∧
      (verifyOtp dir1 env1 ⟨phone, c1⟩).2 = dir1 ∧
      (validOtp c1 = true →
        verifyOtp dir1 env1 ⟨phone, c1⟩ = (sendError 400 "Invalid or expired OTP", dir1))) ∧
    (generateOTP env.random = c1 → validOtp c1 = true →
      env1.now ≤ env.now + 600000 →
      (verifyOtp dir1 env1 ⟨phone, c1⟩).1 =
        otpVerified { f with otp := none, otpExpires := none } env1.now) := by
  obtain ⟨hv, g, hg, hp, hgotp, hgexp, hfg⟩ := issued_post dir dir1 env phone (Or.inr hlogin)
  constructor
  · intro hne
    have hrej : validOtp c1 = true →
        verifyOtp dir1 env1 ⟨phone, c1⟩ = (sendError 400 "Invalid or expired OTP", dir1) := by
      intro hc
      apply verifyOtp_reject dir1 env1 phone c1 g hv hc hg
      left; rw [hgotp]; simpa using hne
    cases hc : validOtp c1 with
    | true => simp [hrej hc, sendError]
    | false => simp [verifyOtp, hc, sendError]
  · intro heq hc htime
    rw [verifyOtp_accept dir1 env1 phone c1 g hv hc hg (heq ▸ hgotp)
      (by simp [expiredAt, hgexp, htime])]
    rw [hfg f hf]

/-- Witness of the amended C3: the pending code `654321` is replaced by a login whose
draw is 0, which generates `100000`. -/
theorem reissue_invalidates_old_witness :
    verifyOtp [⟨1, "Asha", "+919876543210", "Salem", some (generateOTP 0), some 601000⟩]
      ⟨2000, 0, 0⟩ ⟨"+919876543210", "654321"⟩ =
    (sendError 400 "Invalid or expired OTP",
     [⟨1, "Asha", "+919876543210", "Salem", some (generateOTP 0), some 601000⟩]) :=
  ((reissue_invalidates_old
    [⟨1, "Asha", "+919876543210", "Salem", some "654321", some 600000⟩] _
    ⟨1000, 0, 0⟩ ⟨2000, 0, 0⟩ "+919876543210" "654321"
    ⟨1, "Asha", "+919876543210", "Salem", some "654321", some 600000⟩
    (by decide) rfl rfl).1 (by rw [generateOTP_zero]; decide)).2.2 (by decide)

/-- C4 (atomicity on rejection): a well-formed signup for a phone number that already
has a record is rejected with `Farmer already exists`; a well-formed login or
verify-otp for a phone number without a record is rejected with `Farmer not found`; a
well-formed verify-otp whose code differs from the stored one (or finds none stored),
or whose stored expiry is before `now`, is rejected with `Invalid or expired OTP`; in
each case, and for every response of the three routes other than a 200, the
directory after the request is the directory before it. -/
theorem rejection_leaves_directory :
    (∀ (dir : Directory) (env : Env) (body : SignupBody) (f : Farmer),
      notEmpty (trim body.name) = true → validPhone body.phoneNumber = true →
      notEmpty (trim body.district) = true → findOne dir body.phoneNumber = some f →
      signup dir env body = (sendError 400 "Farmer already exists", dir)) ∧
    (∀ (dir : Directory) (env : Env) (phone : String),
      validPhone phone = true → findOne dir phone = none →
      login dir env ⟨phone⟩ = (sendError 400 "Farmer not found", dir)) ∧
    (∀ (dir : Directory) (env : Env) (phone code : String),
      validPhone phone = true → validOtp code = true → findOne dir phone = none →
      verifyOtp dir env ⟨phone, code⟩ = (sendError 400 "Farmer not found", dir)) ∧
    (∀ (dir : Directory) (env : Env) (phone code : String) (f : Farmer),
      validPhone phone = true → validOtp code = true → findOne dir phone = some f →
      (f.otp ≠ some code ∨ ∃ e, f.otpExpires = some e ∧ e < env.now) →
      verifyOtp dir env ⟨phone, code⟩ = (sendError 400 "Invalid or expired OTP", dir)) ∧
    (∀ (dir : Directory) (env : Env) (body : SignupBody),
      (signup dir env body).1.status ≠ 200 → (signup dir env body).2 = dir) ∧
    (∀ (dir : Directory) (env : Env) (body : LoginBody),
      (login dir env body).1.status ≠ 200 → (login dir env body).2 = dir) ∧
    (∀ (dir : Directory) (env : Env) (body : VerifyBody),
      (verifyOtp dir env body).1.status ≠ 200 → (verifyOtp dir env body).2 = dir) := by
  refine ⟨?_, ?_, ?_, ?_, ?_, ?_, ?_⟩
  · intro dir env body f hn hp hd hf
    simp [signup, hn, hp, hd, hf]
  · intro dir env phone hp hf
    simp [login, hp, hf]
  · intro dir env phone code hp hc hf
    simp [verifyOtp, hp, hc, hf]
  · intro dir env phone code f hp hc hf hbad
    apply verifyOtp_reject dir env phone code f hp hc hf
    rcases hbad with h | ⟨e, he, hlt⟩
    · exact Or.inl h
    · right; simp [expiredAt, he, hlt]
  · intro dir env body
    unfold signup
    simp only []
    split
    · intro _; rfl
    · split
      · intro _; rfl
      · split
        · intro _; rfl
        · intro h; exact absurd rfl h
  · intro dir env body
    unfold login
    split
    · intro _; rfl
    · split
      · intro _; rfl
      · intro h; exact absurd rfl h
  · intro dir env body
    unfold verifyOtp
    split
    · intro _; rfl
    · split
      · intro _; rfl
      · split
        · intro _; rfl
        · intro h; exact absurd rfl h

/-- Witness of C4: on a directory holding one farmer whose pending code `123456`
expires at 600000, a second signup for the same number, a wrong code and an expired
code are each rejected and leave the directory as it was. -/
theorem rejection_leaves_directory_witness :
    signup [⟨1, "Asha", "+919876543210", "Salem", some "123456", some 600000⟩]
        ⟨1000, 0, 2⟩ ⟨"Ravi", "+919876543210", "Erode"⟩ =
      (sendError 400 "Farmer already exists",
       [⟨1, "Asha", "+919876543210", "Salem", some "123456", some 600000⟩]) ∧
    verifyOtp [⟨1, "Asha", "+919876543210", "Salem", some "123456", some 600000⟩]
        ⟨1000, 0, 2⟩ ⟨"+919876543210", "000000"⟩ =
      (sendError 400 "Invalid or expired OTP",
       [⟨1, "Asha", "+919876543210", "Salem", some "123456", some 600000⟩]) ∧
    verifyOtp [⟨1, "Asha", "+919876543210", "Salem", some "123456", some 600000⟩]
        ⟨600001, 0, 2⟩ ⟨"+919876543210", "123456"⟩ =
      (sendError 400 "Invalid or expired OTP",
       [⟨1, "Asha", "+919876543210", "Salem", some "123456", some 600000⟩]) ∧
    login [] ⟨1000, 0, 2⟩ ⟨"+919876543210"⟩ = (sendError 400 "Farmer not found", []) ∧
    verifyOtp [] ⟨1000, 0, 2⟩ ⟨"+919876543210", "123456"⟩ =
      (sendError 400 "Farmer not found", []) :=
  ⟨rejection_leaves_directory.1 _ _ _
      ⟨1, "Asha", "+919876543210", "Salem", some "123456", some 600000⟩
      (by decide) (by decide) (by decide) (by decide),
   rejection_leaves_directory.2.2.2.1 _ _ _ _
      ⟨1, "Asha", "+919876543210", "Salem", some "123456", some 600000⟩
      (by decide) (by decide) (by decide) (Or.inl (by decide)),
   rejection_leaves_directory.2.2.2.1 _ _ _ _
      ⟨1, "Asha", "+919876543210", "Salem", some "123456", some 600000⟩
      (by decide) (by decide) (by decide) (Or.inr ⟨600000, rfl, by decide⟩),
   rejection_leaves_directory.2.1 _ _ _ (by decide) (by decide),
   rejection_leaves_directory.2.2.1 _ _ _ _ (by decide) (by decide) (by decide)⟩

theorem floor_intCast_eq (z : Int) : Rat.floor (z : ℚ) = z := by
  show ⌊(z : ℚ)⌋ = z
  exact Int.floor_intCast z

/-- The draw 150119987579 / 2^52: the product is exact, the sum
100029.99999999999669... rounds up to the double 100030. -/
theorem generateOTP_rounds_up : generateOTP (150119987579 / 2 ^ 52) = "100030" := by
  have h1 : roundFinite ((150119987579 / 2 ^ 52 : ℚ) * 900000) =
      8444249301318750 / 2 ^ 48 := by
    have h := roundFinite_grid 8444249301318750 (-48) (by norm_num) (by norm_num)
    have e : ((8444249301318750 : Int) : ℚ) * 2 ^ (-48 : Int) =
        (150119987579 / 2 ^ 52 : ℚ) * 900000 := by norm_num
    rw [e] at h
    rw [h]; norm_num
  have h2 : roundFinite ((100000 : ℚ) + 8444249301318750 / 2 ^ 48) = ((100030 : Int) : ℚ) := by
    have h := roundFinite_eq_of (100000 + 8444249301318750 / 2 ^ 48) 16 (100030 * 2 ^ 36)
      (by norm_num) (by rw [abs_of_pos (by norm_num)]; norm_num)
      (by rw [abs_of_pos (by norm_num)]; norm_num) (by norm_num) (by norm_num)
    rw [h]; norm_num
  rw [generateOTP_def, h1, h2, floor_intCast_eq]
  rfl

/-- The largest double below 1: the product rounds down to 900000 - 2^-33 and the
code is 999999. -/
theorem generateOTP_largest_draw : generateOTP (1 - 1 / 2 ^ 53) = "999999" := by
  have h1 : roundFinite ((1 - 1 / 2 ^ 53 : ℚ) * 900000) = 900000 - 1 / 2 ^ 33 := by
    have h := roundFinite_eq_of ((1 - 1 / 2 ^ 53 : ℚ) * 900000) 19 (900000 * 2 ^ 33 - 1)
      (by norm_num) (by rw [abs_of_pos (by norm_num)]; norm_num)
      (by rw [abs_of_pos (by norm_num)]; norm_num) (by norm_num) (by norm_num)
    rw [h]; norm_num
  have h2 : roundFinite ((100000 : ℚ) + (900000 - 1 / 2 ^ 33)) = 1000000 - 1 / 2 ^ 33 := by
    have h := roundFinite_grid (1000000 * 2 ^ 33 - 1) (-33) (by norm_num) (by norm_num)
    have e : (((1000000 * 2 ^ 33 - 1 : Int) : ℚ)) * 2 ^ (-33 : Int) =
        (100000 : ℚ) + (900000 - 1 / 2 ^ 33) := by norm_num
    rw [e] at h
    rw [h]; norm_num
  have h3 : Rat.floor ((1000000 : ℚ) - 1 / 2 ^ 33) = 999999 := by
    show ⌊((1000000 : ℚ) - 1 / 2 ^ 33)⌋ = 999999
    rw [Int.floor_eq_iff]; norm_num
  rw [generateOTP_def, h1, h2, h3]
  rfl

/-- C5 (issuance postcondition): for every draw `r` of `Math.random()`, a double with
`0 ≤ r < 1`, and every issuance time `now`, after a successful signup or login the
record found under the phone number carries the code `toString n`, where
`n = floor(100000 + r * 900000)`, the product and the sum each rounded to a double,
lies in 100000..999999 and prints as six decimal digits, together with
`otpExpires = now + 600000`; a record that existed before keeps its other fields and
has whatever OTP it held overwritten. The draws 0, 150119987579 / 2^52 (where the sum
rounds up across an integer) and 1 - 2^-53 give the codes 100000, 100030 and 999999. -/
theorem issuance_postcondition :
    (∀ (dir dir1 : Directory) (env : Env) (phone : String),
      isDouble env.random → 0 ≤ env.random → env.random < 1 →
      Issued dir env phone dir1 →
      ∃ (g : Farmer) (n : Nat),
        findOne dir1 phone = some g ∧
        100000 ≤ n ∧ n ≤ 999999 ∧
        (n : Int) = ⌊roundFinite (100000 + roundFinite (env.random * 900000))⌋ ∧
        generateOTP env.random = toString n ∧
        (toString n).length = 6 ∧ (toString n).data.all Char.isDigit = true ∧
        g.otp = some (toString n) ∧ g.otpExpires = some (env.now + 600000) ∧
        ∀ f, findOne dir phone = some f →
          g = { f with otp := some (toString n),
                       otpExpires := some (env.now + 600000) }) ∧
    generateOTP 0 = "100000" ∧
    generateOTP (150119987579 / 2 ^ 52) = "100030" ∧
    generateOTP (1 - 1 / 2 ^ 53) = "999999" := by
  refine ⟨?_, generateOTP_zero, generateOTP_rounds_up, generateOTP_largest_draw⟩
  intro dir dir1 env phone hd h0 h1 hissue
  obtain ⟨-, g, hg, -, hotp, hexp, hfg⟩ := issued_post dir dir1 env phone hissue
  obtain ⟨n, hlo, hhi, hn⟩ := generateOTP_floor env.random hd h0 h1
  have hgen : generateOTP env.random = toString n := by
    rw [generateOTP_def, hn]; rfl
  have hvalid : validOtp (toString n) = true := validOtp_six n hlo hhi
  have hlen : (toString n).data.length = 6 ∧ (toString n).data.all Char.isDigit = true := by
    simpa [validOtp] using hvalid
  refine ⟨g, n, hg, hlo, hhi, hn.symm, hgen, hlen.1, hlen.2, ?_, hexp, ?_⟩
  · rw [hotp, hgen]
  · intro f hf; rw [hfg f hf, hgen]

/-- Witness of C5: a login at time 1000 with draw 0 for a farmer who already holds a
pending code. -/
theorem issuance_postcondition_witness :
    Issued [⟨1, "Asha", "+919876543210", "Salem", some "123456", some 600000⟩]
      ⟨1000, 0, 0⟩ "+919876543210"
      [⟨1, "Asha", "+919876543210", "Salem", some (generateOTP 0), some 601000⟩] ∧
    ∃ (g : Farmer) (n : Nat),
      findOne [⟨1, "Asha", "+919876543210", "Salem", some (generateOTP 0), some 601000⟩]
        "+919876543210" = some g ∧
      100000 ≤ n ∧ n ≤ 999999 ∧
      (n : Int) = ⌊roundFinite (100000 + roundFinite ((0 : ℚ) * 900000))⌋ ∧
      generateOTP 0 = toString n ∧
      (toString n).length = 6 ∧ (toString n).data.all Char.isDigit = true ∧
      g.otp = some (toString n) ∧ g.otpExpires = some ((1000 : Int) + 600000) ∧
      ∀ f, findOne [⟨1, "Asha", "+919876543210", "Salem", some "123456", some 600000⟩]
          "+919876543210" = some f →
        g = { f with otp := some (toString n), otpExpires := some ((1000 : Int) + 600000) } :=
  ⟨Or.inr rfl,
   issuance_postcondition.1
    [⟨1, "Asha", "+919876543210", "Salem", some "123456", some 600000⟩] _
    ⟨1000, 0, 0⟩ "+919876543210" isDouble_zero (le_refl 0) (by norm_num) (Or.inr rfl)⟩

/-! ## Helper lemmas: the recommendation engine -/

theorem recommend_season (s : String) (c : ClimateData) (acres : ℚ) :
    (recommend s c acres).2 =
      if c.temperature.gt 30 then "Summer"
      else if c.temperature.lt 20 then "Winter" else "Monsoon" := rfl

theorem recommend_fst (s : String) (c : ClimateData) (acres : ℚ) :
    (recommend s c acres).1 =
      { (getCropRecommendations s c).1 with
        profit := mathRound (jsMul (getCropRecommendations s c).1.profit acres) } := rfl

theorem jsNumber_ofNat (n : Nat) [n.AtLeastTwo] :
    (OfNat.ofNat n : JsNumber) = .fin (OfNat.ofNat n) := by
  show JsNumber.fin ((n : ℕ) : ℚ) = _
  rw [Nat.cast_eq_ofNat]

theorem jsNumber_zero : (0 : JsNumber) = .fin 0 := by
  show JsNumber.fin ((0 : ℕ) : ℚ) = _
  rw [Nat.cast_zero]

/-- The profit of the route for a product that is an integer below `2 ^ 53`: the
product is exact and rounding leaves it. -/
theorem profit_int (b acres : ℚ) (z : Int) (hz : b * acres = z) (hlt : |z| < 2 ^ 53) :
    mathRound (jsMul (.fin b) acres) = .fin z := by
  unfold jsMul
  simp only []
  rw [hz, roundDouble_intCast z hlt]
  unfold mathRound
  simp only []
  have h : Rat.floor ((z : ℚ) + 1 / 2) = z := by
    show ⌊(z : ℚ) + 1 / 2⌋ = z
    rw [Int.floor_eq_iff]; constructor <;> linarith
  rw [h]

/-- The profit of the route for a nonnegative product: the product rounded to a
double, then rounded to the nearest integer, or the positive infinity. -/
theorem profit_fin (b acres : ℚ) (hpos : 0 ≤ b * acres) :
    mathRound (jsMul (.fin b) acres) =
      if |roundFinite (b * acres)| < 2 ^ 1024 then
        .fin (⌊roundFinite (b * acres) + 1 / 2⌋ : ℚ)
      else .inf false := by
  unfold jsMul roundDouble
  simp only []
  split_ifs with h
  · rfl
  · have : decide (b * acres < 0) = false := by simpa using hpos
    rw [this]; rfl

theorem stressed_num (t h : ℚ) :
    stressed ⟨.num t, .num h⟩ = true ↔ 35 < t ∨ h < 20 := by
  simp [stressed, Reading.gt, Reading.lt]

theorem getCropRecommendations_stress (s : String) (c c' : ClimateData)
    (hc : stressed c = true) (hc' : stressed c' = false) :
    (getCropRecommendations s c).1 =
      { (getCropRecommendations s c').1 with
        crops := (getCropRecommendations s c').1.crops.map
          (fun crop => crop ++ " (with irrigation)"),
        reason := (getCropRecommendations s c').1.reason ++ irrigationCaveat } := by
  simp only [getCropRecommendations, hc, hc', if_true]
  simp

/-! ## Claims about the recommendation engine -/

/-- The five rows of the engine, for a climate without stress. -/
theorem getCropRecommendations_known (c : ClimateData) (hc : stressed c = false) :
    (getCropRecommendations "Sandy" c).1 =
      { crops := ["Millets", "Groundnuts"], fertilizers := ["Urea", "Potash"],
        profit := .fin 50000,
        reason := "Sandy soil drains quickly, suitable for drought-resistant crops like millets." } ∧
    (getCropRecommendations "Clay" c).1 =
      { crops := ["Rice", "Wheat"], fertilizers := ["Compost", "Phosphate"],
        profit := .fin 60000,
        reason := "Clay soil retains water, ideal for rice and wheat." } ∧
    (getCropRecommendations "Loamy" c).1 =
      { crops := ["Maize", "Vegetables"], fertilizers := ["NPK", "Organic Compost"],
        profit := .fin 70000,
        reason := "Loamy soil is fertile and well-balanced, good for a variety of crops." } ∧
    (getCropRecommendations "Silty" c).1 =
      { crops := ["Barley", "Potatoes"], fertilizers := ["Potash", "Lime"],
        profit := .fin 55000,
        reason := "Silty soil is smooth and retains moisture, suitable for barley and potatoes." } ∧
    (getCropRecommendations "Peaty" c).1 =
      { crops := ["Berries", "Pasture Grass"], fertilizers := ["Lime", "Phosphate"],
        profit := .fin 45000,
        reason := "Peaty soil is acidic and organic-rich, good for berries and grasses." } := by
  refine ⟨?_, ?_, ?_, ?_, ?_⟩ <;> simp [getCropRecommendations, hc, jsNumber_ofNat]

/-- The double nearest to 0.01001. -/
theorem isDouble_acres : isDouble (5770372130557269 / 2 ^ 59) := by
  have h := isDouble_grid 5770372130557269 (-59) (by norm_num) (by norm_num)
    (by rw [abs_of_pos (by positivity)]; norm_num)
  have e : ((5770372130557269 : Int) : ℚ) * 2 ^ (-59 : Int) = 5770372130557269 / 2 ^ 59 := by
    norm_num
  rw [e] at h
  exact h

/-- The product of 50000 and the double nearest to 0.01001 lies below 500.5 and
rounds to the double 500.5. -/
theorem roundFinite_sandy_product :
    roundFinite (50000 * (5770372130557269 / 2 ^ 59)) = 1001 / 2 := by
  have h := roundFinite_eq_of (50000 * (5770372130557269 / 2 ^ 59)) 8 8804889115230208
    (by norm_num) (by rw [abs_of_pos (by norm_num)]; norm_num)
    (by rw [abs_of_pos (by norm_num)]; norm_num) (by norm_num) (by norm_num)
  rw [h]; norm_num

/-- C6 (known soil, no stress): for each of the five rows Sandy, Clay, Loamy, Silty
and Peaty, every climate with `temperature ≤ 35` and `humidity ≥ 20` and every
positive `acres`, the recommendation carries the crops, fertilizers and reason of the
row, and its profit is `Math.round(profit_per_acre * acres)`: the product rounded to
a double `x`, then the integer `floor(x + 1/2)`, or `Infinity` when the product
leaves the finite range. Clay with temperature 25, humidity 50 and 2 acres gives
crops Rice and Wheat, fertilizers Compost and Phosphate, profit 120000, season
Monsoon and the reason without the irrigation caveat; Sandy with the double nearest
to 0.01001 acres gives profit 501, the product being the double 500.5; Loamy with
`2 ^ 1010` acres gives profit `Infinity`. -/
theorem recommend_known_soil :
    (∀ (s : String) (crops fertilizers : List String) (b : ℚ) (reason : String)
        (t h acres : ℚ),
      (s, crops, fertilizers, b, reason) ∈
        ([("Sandy", ["Millets", "Groundnuts"], ["Urea", "Potash"], 50000,
            "Sandy soil drains quickly, suitable for drought-resistant crops like millets."),
          ("Clay", ["Rice", "Wheat"], ["Compost", "Phosphate"], 60000,
            "Clay soil retains water, ideal for rice and wheat."),
          ("Loamy", ["Maize", "Vegetables"], ["NPK", "Organic Compost"], 70000,
            "Loamy soil is fertile and well-balanced, good for a variety of crops."),
          ("Silty", ["Barley", "Potatoes"], ["Potash", "Lime"], 55000,
            "Silty soil is smooth and retains moisture, suitable for barley and potatoes."),
          ("Peaty", ["Berries", "Pasture Grass"], ["Lime", "Phosphate"], 45000,
            "Peaty soil is acidic and organic-rich, good for berries and grasses.")] :
          List (String × List String × List String × ℚ × String)) →
      t ≤ 35 → 20 ≤ h → 0 < acres →
      (recommend s ⟨.num t, .num h⟩ acres).1 =
        { crops := crops, fertilizers := fertilizers,
          profit :=
            if |roundFinite (b * acres)| < 2 ^ 1024 then
              .fin (⌊roundFinite (b * acres) + 1 / 2⌋ : ℚ)
            else .inf false,
          reason := reason }) ∧
    recommend "Clay" ⟨.num 25, .num 50⟩ 2 =
      ({ crops := ["Rice", "Wheat"], fertilizers := ["Compost", "Phosphate"],
         profit := .fin 120000,
         reason := "Clay soil retains water, ideal for rice and wheat." },
       "Monsoon") ∧
    (recommend "Sandy" ⟨.num 25, .num 50⟩ (5770372130557269 / 2 ^ 59)).1.profit = .fin 501 ∧
    (recommend "Loamy" ⟨.num 25, .num 50⟩ (2 ^ 1010)).1.profit = .inf false := by
  have hgen : ∀ (s : String) (crops fertilizers : List String) (b : ℚ) (reason : String)
        (t h acres : ℚ),
      (s, crops, fertilizers, b, reason) ∈
        ([("Sandy", ["Millets", "Groundnuts"], ["Urea", "Potash"], 50000,
            "Sandy soil drains quickly, suitable for drought-resistant crops like millets."),
          ("Clay", ["Rice", "Wheat"], ["Compost", "Phosphate"], 60000,
            "Clay soil retains water, ideal for rice and wheat."),
          ("Loamy", ["Maize", "Vegetables"], ["NPK", "Organic Compost"], 70000,
            "Loamy soil is fertile and well-balanced, good for a variety of crops."),
          ("Silty", ["Barley", "Potatoes"], ["Potash", "Lime"], 55000,
            "Silty soil is smooth and retains moisture, suitable for barley and potatoes."),
          ("Peaty", ["Berries", "Pasture Grass"], ["Lime", "Phosphate"], 45000,
            "Peaty soil is acidic and organic-rich, good for berries and grasses.")] :
          List (String × List String × List String × ℚ × String)) →
      t ≤ 35 → 20 ≤ h → 0 < acres →
      (recommend s ⟨.num t, .num h⟩ acres).1 =
        { crops := crops, fertilizers := fertilizers,
          profit :=
            if |roundFinite (b * acres)| < 2 ^ 1024 then
              .fin (⌊roundFinite (b * acres) + 1 / 2⌋ : ℚ)
            else .inf false,
          reason := reason } := by
    intro s crops fertilizers b reason t h acres hrow ht hh hacres
    have hc : stressed ⟨.num t, .num h⟩ = false := by
      rw [Bool.eq_false_iff, Ne, stressed_num]; push_neg; exact ⟨ht, hh⟩
    simp only [List.mem_cons, Prod.mk.injEq, List.mem_singleton, List.not_mem_nil,
      or_false] at hrow
    obtain ⟨k1, k2, k3, k4, k5⟩ := getCropRecommendations_known ⟨.num t, .num h⟩ hc
    rw [recommend_fst]
    rcases hrow with ⟨rfl, rfl, rfl, rfl, rfl⟩ | ⟨rfl, rfl, rfl, rfl, rfl⟩ |
      ⟨rfl, rfl, rfl, rfl, rfl⟩ | ⟨rfl, rfl, rfl, rfl, rfl⟩ | ⟨rfl, rfl, rfl, rfl, rfl⟩
    · rw [k1]; simp only []; rw [profit_fin _ acres (by positivity)]
    · rw [k2]; simp only []; rw [profit_fin _ acres (by positivity)]
    · rw [k3]; simp only []; rw [profit_fin _ acres (by positivity)]
    · rw [k4]; simp only []; rw [profit_fin _ acres (by positivity)]
    · rw [k5]; simp only []; rw [profit_fin _ acres (by positivity)]
  refine ⟨hgen, ?_, ?_, ?_⟩
  · have hs : (recommend "Clay" ⟨.num 25, .num 50⟩ 2).2 = "Monsoon" := by
      rw [recommend_season]; simp [Reading.gt, Reading.lt]; norm_num
    have hp : mathRound (jsMul (.fin 60000) 2) = .fin 120000 := by
      have := profit_int 60000 2 120000 (by norm_num) (by norm_num)
      simpa using this
    have hc : stressed ⟨.num 25, .num 50⟩ = false := by
      rw [Bool.eq_false_iff, Ne, stressed_num]; norm_num
    rw [Prod.ext_iff]
    refine ⟨?_, hs⟩
    rw [recommend_fst, (getCropRecommendations_known _ hc).2.1]
    simp only []
    rw [hp]
  · have hc : stressed ⟨.num 25, .num 50⟩ = false := by
      rw [Bool.eq_false_iff, Ne, stressed_num]; norm_num
    rw [recommend_fst, (getCropRecommendations_known _ hc).1]
    simp only []
    rw [profit_fin _ _ (by positivity)]
    simp only [roundFinite_sandy_product]
    have hfl : ⌊((1001 : ℚ) / 2 + 1 / 2)⌋ = 501 := by
      rw [Int.floor_eq_iff]; norm_num
    rw [hfl, if_pos (by rw [abs_of_pos (by norm_num)]; norm_num)]
    norm_num
  · have hc : stressed ⟨.num 25, .num 50⟩ = false := by
      rw [Bool.eq_false_iff, Ne, stressed_num]; norm_num
    rw [recommend_fst, (getCropRecommendations_known _ hc).2.2.1]
    simp only []
    rw [profit_fin _ _ (by positivity)]
    have hg := roundFinite_grid 70000 1010 (by norm_num) (by norm_num)
    have e : ((70000 : Int) : ℚ) * 2 ^ (1010 : Int) = (70000 : ℚ) * 2 ^ 1010 := by norm_num
    rw [e] at hg
    simp only [hg]
    rw [if_neg]
    rw [abs_of_pos (by positivity)]
    norm_num

/-- Witness of C6: Loamy soil at temperature 35 and humidity 20, the two bounds, for
half an acre. -/
theorem recommend_known_soil_witness :
    (recommend "Loamy" ⟨.num 35, .num 20⟩ (1 / 2)).1 =
      { crops := ["Maize", "Vegetables"], fertilizers := ["NPK", "Organic Compost"],
        profit :=
          if |roundFinite (70000 * (1 / 2))| < 2 ^ 1024 then
            .fin (⌊roundFinite (70000 * (1 / 2)) + 1 / 2⌋ : ℚ)
          else .inf false,
        reason := "Loamy soil is fertile and well-balanced, good for a variety of crops." } :=
  recommend_known_soil.1 "Loamy" ["Maize", "Vegetables"] ["NPK", "Organic Compost"] 70000
    "Loamy soil is fertile and well-balanced, good for a variety of crops."
    35 20 (1 / 2) (by simp) (le_refl _) (le_refl _) (by norm_num)

/-- C7 (stress adjustment): for every soil type, every climate with
`temperature > 35` or `humidity < 20`, and every climate `c'` without stress, the
crops are the crops returned for `c'`, in order, each with ` (with irrigation)`
appended, the reason is the reason returned for `c'` followed by the irrigation
caveat, and fertilizers and profit are those returned for `c'`; Sandy with
temperature 36, humidity 15 and 1 acre gives crops `Millets (with irrigation)` and
`Groundnuts (with irrigation)` and profit 50000. -/
theorem stress_adjustment :
    (∀ (s : String) (c c' : ClimateData) (acres : ℚ),
      (c.temperature.gt 35 = true ∨ c.humidity.lt 20 = true) →
      (c'.temperature.gt 35 = false ∧ c'.humidity.lt 20 = false) →
      (recommend s c acres).1.crops =
        (recommend s c' acres).1.crops.map (fun crop => crop ++ " (with irrigation)") ∧
      (recommend s c acres).1.reason =
        (recommend s c' acres).1.reason ++
          " High temperature or low humidity requires irrigation." ∧
      (recommend s c acres).1.fertilizers = (recommend s c' acres).1.fertilizers ∧
      (recommend s c acres).1.profit = (recommend s c' acres).1.profit) ∧
    (recommend "Sandy" ⟨.num 36, .num 15⟩ 1).1 =
      { crops := ["Millets (with irrigation)", "Groundnuts (with irrigation)"],
        fertilizers := ["Urea", "Potash"], profit := 50000,
        reason := "Sandy soil drains quickly, suitable for drought-resistant crops like millets. High temperature or low humidity requires irrigation." } := by
  constructor
  · intro s c c' acres hc hc'
    have h1 : stressed c = true := by
      rcases hc with h | h <;> simp [stressed, h]
    have h2 : stressed c' = false := by simp [stressed, hc'.1, hc'.2]
    rw [recommend_fst, recommend_fst, getCropRecommendations_stress s c c' h1 h2]
    exact ⟨rfl, rfl, rfl, rfl⟩
  · have hc : stressed ⟨.num 36, .num 15⟩ = true := by
      rw [stressed_num]; norm_num
    have hp : mathRound (jsMul (.fin 50000) 1) = .fin 50000 := by
      have := profit_int 50000 1 50000 (by norm_num) (by norm_num)
      simpa using this
    rw [recommend_fst]
    simp only [getCropRecommendations, hc, if_true, jsNumber_ofNat, hp]
    simp [irrigationCaveat]

/-- Witness of C7: Peaty soil for 3 acres under a dry climate (humidity 10) and under
the unstressed climate of temperature 25 and humidity 50. -/
theorem stress_adjustment_witness :
    (recommend "Peaty" ⟨.num 25, .num 10⟩ 3).1.crops =
      (recommend "Peaty" ⟨.num 25, .num 50⟩ 3).1.crops.map
        (fun crop => crop ++ " (with irrigation)") ∧
    (recommend "Peaty" ⟨.num 25, .num 10⟩ 3).1.reason =
      (recommend "Peaty" ⟨.num 25, .num 50⟩ 3).1.reason ++
        " High temperature or low humidity requires irrigation." ∧
    (recommend "Peaty" ⟨.num 25, .num 10⟩ 3).1.fertilizers =
      (recommend "Peaty" ⟨.num 25, .num 50⟩ 3).1.fertilizers ∧
    (recommend "Peaty" ⟨.num 25, .num 10⟩ 3).1.profit =
      (recommend "Peaty" ⟨.num 25, .num 50⟩ 3).1.profit :=
  stress_adjustment.1 "Peaty" ⟨.num 25, .num 10⟩ ⟨.num 25, .num 50⟩ 3
    (Or.inr (by simp [Reading.lt]; norm_num))
    ⟨by simp [Reading.gt]; norm_num, by simp [Reading.lt]; norm_num⟩

/-- C8, counterexample: for the unknown soil type Rocky under temperature 40 and
humidity 50 the reason is not `Unknown soil type.`: the irrigation caveat follows it. -/
theorem unknown_soil_stressed_reason :
    (recommend "Rocky" ⟨.num 40, .num 50⟩ 3).1.reason =
      "Unknown soil type. High temperature or low humidity requires irrigation." ∧
    (recommend "Rocky" ⟨.num 40, .num 50⟩ 3).1.reason ≠ "Unknown soil type." := by
  have hc : stressed ⟨.num 40, .num 50⟩ = true := by
    rw [stressed_num]; norm_num
  have h : (recommend "Rocky" ⟨.num 40, .num 50⟩ 3).1.reason =
      "Unknown soil type. High temperature or low humidity requires irrigation." := by
    rw [recommend_fst]
    simp only [getCropRecommendations, hc, if_true]
    simp [irrigationCaveat]
  exact ⟨h, by rw [h]; decide⟩

/-- C8, amended: for every soil type outside Sandy, Clay, Loamy, Silty and Peaty,
every climate and every acres, the recommendation has empty crops, empty fertilizers
and profit 0; its reason is `Unknown soil type.` when the climate is without stress,
and `Unknown soil type.` followed by the irrigation caveat when `temperature > 35` or
`humidity < 20`. -/
theorem recommend_unknown_soil (s : String) (c : ClimateData) (acres : ℚ)
    (hs : s ∉ knownSoils) :
    (recommend s c acres).1.crops = [] ∧
    (recommend s c acres).1.fertilizers = [] ∧
    (recommend s c acres).1.profit = 0 ∧
    (recommend s c acres).1.reason =
      if c.temperature.gt 35 || c.humidity.lt 20 then
        "Unknown soil type. High temperature or low humidity requires irrigation."
      else "Unknown soil type." := by
  simp only [knownSoils, List.mem_cons, List.mem_singleton, List.not_mem_nil, or_false,
    not_or] at hs
  obtain ⟨h1, h2, h3, h4, h5⟩ := hs
  have hp : mathRound (jsMul (.fin 0) acres) = .fin 0 := by
    have := profit_int 0 acres 0 (by norm_num) (by norm_num)
    simpa using this
  rw [recommend_fst]
  cases hc : stressed c with
  | true =>
    have hc' : (c.temperature.gt 35 || c.humidity.lt 20) = true := hc
    simp only [getCropRecommendations, hc, hc', h1, h2, h3, h4, h5, if_true, if_false,
      jsNumber_zero, hp]
    simp [irrigationCaveat]
  | false =>
    have hc' : (c.temperature.gt 35 || c.humidity.lt 20) = false := hc
    simp only [getCropRecommendations, hc, hc', h1, h2, h3, h4, h5, if_false,
      jsNumber_zero, hp]
    simpa using hp

/-- Witness of the amended C8: the soil type Rocky at temperature 22, humidity 50 and
3 acres. -/
theorem recommend_unknown_soil_witness :
    (recommend "Rocky" ⟨.num 22, .num 50⟩ 3).1.crops = [] ∧
    (recommend "Rocky" ⟨.num 22, .num 50⟩ 3).1.fertilizers = [] ∧
    (recommend "Rocky" ⟨.num 22, .num 50⟩ 3).1.profit = 0 ∧
    (recommend "Rocky" ⟨.num 22, .num 50⟩ 3).1.reason =
      if (Reading.num 22).gt 35 || (Reading.num 50).lt 20 then
        "Unknown soil type. High temperature or low humidity requires irrigation."
      else "Unknown soil type." :=
  recommend_unknown_soil "Rocky" ⟨.num 22, .num 50⟩ 3 (by decide)

/-- C9 (season derivation): for every numeric temperature `t` the season is `Summer`
iff `t > 30`, `Winter` iff `t < 20` and `Monsoon` iff `20 ≤ t ≤ 30`, so 20 and 30 both
give `Monsoon`; the season is the same for every soil type, humidity and acres. -/
theorem season_derivation (t : ℚ) (s s' : String) (h h' : Reading) (acres acres' : ℚ) :
    ((recommend s ⟨.num t, h⟩ acres).2 = "Summer" ↔ 30 < t) ∧
    ((recommend s ⟨.num t, h⟩ acres).2 = "Winter" ↔ t < 20) ∧
    ((recommend s ⟨.num t, h⟩ acres).2 = "Monsoon" ↔ 20 ≤ t ∧ t ≤ 30) ∧
    (recommend s ⟨.num 20, h⟩ acres).2 = "Monsoon" ∧
    (recommend s ⟨.num 30, h⟩ acres).2 = "Monsoon" ∧
    (recommend s ⟨.num t, h⟩ acres).2 = (recommend s' ⟨.num t, h'⟩ acres').2 := by
  simp only [recommend_season, Reading.gt, Reading.lt]
  refine ⟨?_, ?_, ?_, ?_, ?_, trivial⟩
  · by_cases h1 : 30 < t
    · simp [h1]
    · by_cases h2 : t < 20 <;> simp [h1, h2]
  · by_cases h1 : 30 < t
    · have h2 : ¬ t < 20 := by linarith
      simp [h1, h2]
    · by_cases h2 : t < 20 <;> simp [h1, h2]
  · by_cases h1 : 30 < t
    · have h2 : ¬ t ≤ 30 := by linarith
      simp [h1, h2]
    · by_cases h2 : t < 20
      · have h3 : ¬ 20 ≤ t := by linarith
        simp [h1, h2, h3]
      · simp [h1, h2]
        exact ⟨le_of_not_lt h2, le_of_not_lt h1⟩
  · norm_num
  · norm_num

/-! ## Helper lemmas: the weather cache -/

theorem find_cacheDel_ne (cache : Cache) (key k : String) (hne : key ≠ k) :
    (cacheDel cache k).find? (fun e => e.key == key) =
      cache.find? (fun e => e.key == key) := by
  induction cache with
  | nil => rfl
  | cons a rest ih =>
    unfold cacheDel at ih ⊢
    rw [List.filter_cons]
    by_cases hak : a.key = k
    · have hb : (a.key != k) = false := by simp [hak]
      have hc : (a.key == key) = false := by
        rw [beq_eq_false_iff_ne, hak]; exact fun h => hne h.symm
      simp only [hb, Bool.false_eq_true, if_false, List.find?_cons, hc]
      exact ih
    · have hb : (a.key != k) = true := by simpa using hak
      simp only [hb, if_true, List.find?_cons]
      cases hc : (a.key == key) with
      | true => rfl
      | false => exact ih

theorem find_cacheSet_ne (cache : Cache) (now : Int) (key k : String) (x : ClimateData)
    (hne : key ≠ k) :
    (cacheSet cache now k x).find? (fun e => e.key == key) =
      cache.find? (fun e => e.key == key) := by
  have hne' : (k == key) = false := by simpa using fun h : k = key => hne h.symm
  simp [cacheSet, List.find?_cons, hne', find_cacheDel_ne cache key k hne]

theorem find_cacheSet_self (cache : Cache) (now : Int) (key : String) (x : ClimateData) :
    (cacheSet cache now key x).find? (fun e => e.key == key) =
      some { key := key, v := x, t := now + 3600000 } := by
  simp [cacheSet, List.find?_cons, stdTTL]

/-- A lookup that finds a live entry under the user's key answers with it, leaves the
cache as it is and asks nothing of the provider. -/
theorem getClimate_hit (dir : Directory) (cache : Cache) (now texp : Int)
    (provider : String → ProviderResult) (user : Token) (v : ClimateData)
    (hfind : cache.find? (fun e => e.key == cacheKey user.phoneNumber) =
      some { key := cacheKey user.phoneNumber, v := v, t := texp })
    (hnow : now ≤ texp) :
    getClimate dir cache now provider user =
      { climate := some v, cache := cache, fetched := [] } := by
  have hlive : ¬ texp < now := not_lt.mpr hnow
  simp [getClimate, cacheGet, hfind, hlive]

theorem cacheGet_other (cache : Cache) (now : Int) (key k : String) (hne : key ≠ k) :
    (cacheGet cache now k).2.find? (fun e => e.key == key) =
      cache.find? (fun e => e.key == key) := by
  unfold cacheGet
  split
  · rfl
  · split
    · exact find_cacheDel_ne cache key k hne
    · rfl

/-- The cache a lookup leaves is the cache after its `get`, or that cache with a value
set under the user's key. -/
theorem getClimate_cache (dir : Directory) (cache : Cache) (now : Int)
    (provider : String → ProviderResult) (user : Token) :
    (getClimate dir cache now provider user).cache =
        (cacheGet cache now (cacheKey user.phoneNumber)).2 ∨
    ∃ x, (getClimate dir cache now provider user).cache =
        cacheSet (cacheGet cache now (cacheKey user.phoneNumber)).2 now
          (cacheKey user.phoneNumber) x := by
  unfold getClimate
  generalize cacheGet cache now (cacheKey user.phoneNumber) = p
  obtain ⟨o, c1⟩ := p
  cases o with
  | some x => exact Or.inl rfl
  | none =>
    cases hd : findById dir user.id with
    | none => exact Or.inl rfl
    | some farmer => exact Or.inr ⟨_, rfl⟩

/-- A lookup at a time up to the expiry of an entry leaves that entry in the cache,
whoever the lookup is for. -/
theorem getClimate_keeps (dir : Directory) (cache : Cache) (now texp : Int)
    (provider : String → ProviderResult) (user : Token) (key : String) (v : ClimateData)
    (hfind : cache.find? (fun e => e.key == key) = some { key := key, v := v, t := texp })
    (hnow : now ≤ texp) :
    (getClimate dir cache now provider user).cache.find? (fun e => e.key == key) =
      some { key := key, v := v, t := texp } := by
  by_cases hk : cacheKey user.phoneNumber = key
  · subst hk
    rw [getClimate_hit dir cache now texp provider user v hfind hnow]
    exact hfind
  · have hne : key ≠ cacheKey user.phoneNumber := fun h => hk h.symm
    rcases getClimate_cache dir cache now provider user with h | ⟨x, h⟩
    · rw [h, cacheGet_other cache now key _ hne]; exact hfind
    · rw [h, find_cacheSet_ne _ _ _ _ _ hne, cacheGet_other cache now key _ hne]; exact hfind

theorem runLookups_keeps (requests : List LookupRequest) (cache : Cache) (texp : Int)
    (key : String) (v : ClimateData)
    (hfind : cache.find? (fun e => e.key == key) = some { key := key, v := v, t := texp })
    (hnow : ∀ r ∈ requests, r.now ≤ texp) :
    (runLookups cache requests).find? (fun e => e.key == key) =
      some { key := key, v := v, t := texp } := by
  induction requests generalizing cache with
  | nil => exact hfind
  | cons r rest ih =>
    have hr : r.now ≤ texp := hnow r (List.mem_cons_self r rest)
    have hrest : ∀ q ∈ rest, q.now ≤ texp := fun q hq => hnow q (List.mem_cons_of_mem r hq)
    exact ih _ (getClimate_keeps r.dir cache r.now texp r.provider r.user key v hfind hr) hrest

/-- A lookup that asked the provider stored what it returned, under the user's key,
to expire 3600000 ms later. -/
theorem getClimate_stores (dir : Directory) (cache : Cache) (t : Int)
    (provider : String → ProviderResult) (user : Token) (v : ClimateData)
    (hmiss : (getClimate dir cache t provider user).fetched ≠ [])
    (hv : (getClimate dir cache t provider user).climate = some v) :
    (getClimate dir cache t provider user).cache.find?
        (fun e => e.key == cacheKey user.phoneNumber) =
      some { key := cacheKey user.phoneNumber, v := v, t := t + 3600000 } := by
  unfold getClimate at hmiss hv ⊢
  generalize cacheGet cache t (cacheKey user.phoneNumber) = p at hmiss hv ⊢
  obtain ⟨o, c1⟩ := p
  cases o with
  | some x => simp at hmiss
  | none =>
    cases hd : findById dir user.id with
    | none => simp [hd] at hmiss
    | some farmer =>
      simp only [hd, Option.some.injEq] at hv ⊢
      rw [← hv]
      exact find_cacheSet_self _ _ _ _

/-! ## Claims about the weather cache -/

/-- C10 (cache hit): if a climate lookup at time `t` asked the provider and so stored
the value `v` it returned under the farmer's key, then after any further lookups made
less than 3600 s after `t`, every lookup for the same key at a time less than 3600 s
after `t` returns exactly `v`, leaves the cache as it is and does not invoke the
weather provider, whatever the provider would answer; the recommendation route then
answers with `v` as its climate data. -/
theorem cache_hit (dir : Directory) (cache : Cache) (t : Int)
    (provider : String → ProviderResult) (user : Token) (v : ClimateData)
    (hmiss : (getClimate dir cache t provider user).fetched ≠ [])
    (hv : (getClimate dir cache t provider user).climate = some v)
    (requests : List LookupRequest) (hreq : ∀ r ∈ requests, r.now < t + 3600 * 1000)
    (dir' : Directory) (provider' : String → ProviderResult) (user' : Token) (now' : Int)
    (hkey : user'.phoneNumber = user.phoneNumber) (hnow : now' < t + 3600 * 1000) :
    getClimate dir' (runLookups (getClimate dir cache t provider user).cache requests)
        now' provider' user' =
      { climate := some v,
        cache := runLookups (getClimate dir cache t provider user).cache requests,
        fetched := [] } ∧
    ∀ body : RecommendationBody, recommendationErrors body = [] →
      postRecommendation dir'
          (runLookups (getClimate dir cache t provider user).cache requests)
          now' provider' user' body =
        (.ok body.soilType v (recommend body.soilType v body.acres).2
            (recommend body.soilType v body.acres).1,
         runLookups (getClimate dir cache t provider user).cache requests, []) := by
  have hstored := getClimate_stores dir cache t provider user v hmiss hv
  have hkept := runLookups_keeps requests _ (t + 3600000) _ v hstored
    (fun r hr => by have := hreq r hr; omega)
  rw [← hkey] at hkept
  have hhit := getClimate_hit dir' _ now' (t + 3600000) provider' user' v hkept (by omega)
  refine ⟨hhit, ?_⟩
  intro body hbody
  simp [postRecommendation, hbody, hhit]

/-- Witness of C10: farmer 1 misses the empty cache at time 0 and stores what the
provider returned; farmer 2 looks up in between; farmer 1 asks again 3599999 ms after
the first lookup, when the provider is down. -/
theorem cache_hit_witness :
    getClimate []
        (runLookups
          (getClimate [⟨1, "Asha", "+919876543210", "Salem", none, none⟩] [] 0
            (fun _ => .response (some ⟨.num 31, .num 40⟩))
            ⟨1, "+919876543210", 3600⟩).cache
          [⟨1000, [⟨2, "Ravi", "+919876543211", "Erode", none, none⟩],
            fun _ => .failure, ⟨2, "+919876543211", 3600⟩⟩])
        3599999 (fun _ => .failure) ⟨1, "+919876543210", 7200⟩ =
      { climate := some ⟨.num 31, .num 40⟩,
        cache := runLookups
          (getClimate [⟨1, "Asha", "+919876543210", "Salem", none, none⟩] [] 0
            (fun _ => .response (some ⟨.num 31, .num 40⟩))
            ⟨1, "+919876543210", 3600⟩).cache
          [⟨1000, [⟨2, "Ravi", "+919876543211", "Erode", none, none⟩],
            fun _ => .failure, ⟨2, "+919876543211", 3600⟩⟩],
        fetched := [] } :=
  (cache_hit [⟨1, "Asha", "+919876543210", "Salem", none, none⟩] [] 0
    (fun _ => .response (some ⟨.num 31, .num 40⟩)) ⟨1, "+919876543210", 3600⟩
    ⟨.num 31, .num 40⟩ (by decide) rfl
    [⟨1000, [⟨2, "Ravi", "+919876543211", "Erode", none, none⟩],
      fun _ => .failure, ⟨2, "+919876543211", 3600⟩⟩]
    (by intro r hr; simp only [List.mem_singleton] at hr; subst hr; decide)
    [] (fun _ => .failure) ⟨1, "+919876543210", 7200⟩ 3599999 rfl (by decide)).1

/-- A failed provider call, and a response without `main`, both end in the fallback. -/
theorem fetchClimate_fallback (provider : String → ProviderResult) (district : String)
    (h : provider district = .failure ∨ provider district = .response none) :
    fetchClimate provider district = fallbackClimate := by
  rcases h with h | h <;> simp [fetchClimate, h]

/-- A lookup that misses the cache and finds the farmer asks the provider once, for the
farmer's district, and stores what it read off the answer. -/
theorem getClimate_miss (dir : Directory) (cache : Cache) (t : Int)
    (provider : String → ProviderResult) (user : Token) (farmer : Farmer)
    (hget : (cacheGet cache t (cacheKey user.phoneNumber)).1 = none)
    (hfarmer : findById dir user.id = some farmer) :
    getClimate dir cache t provider user =
      { climate := some (fetchClimate provider farmer.district),
        cache := cacheSet (cacheGet cache t (cacheKey user.phoneNumber)).2 t
          (cacheKey user.phoneNumber) (fetchClimate provider farmer.district),
        fetched := [farmer.district] } := by
  unfold getClimate
  generalize cacheGet cache t (cacheKey user.phoneNumber) = p at hget ⊢
  obtain ⟨o, c1⟩ := p
  simp only at hget
  subst hget
  simp [hfarmer]

/-- C11 (cache the fallback): when the cache holds no live entry under the farmer's
key and the provider call for the farmer's district fails, the climate lookup returns
temperature 25 and humidity 60 as its value, not an error, and stores that value under
the key; after any further lookups made within the TTL, a lookup for the same key
less than 3600 s later returns the same fallback, leaves the cache as it is and does
not call the provider, whatever the provider would answer now. -/
theorem fallback_cached (dir : Directory) (cache : Cache) (t : Int)
    (provider : String → ProviderResult) (user : Token) (farmer : Farmer)
    (hget : (cacheGet cache t (cacheKey user.phoneNumber)).1 = none)
    (hfarmer : findById dir user.id = some farmer)
    (hfail : provider farmer.district = .failure)
    (requests : List LookupRequest) (hreq : ∀ r ∈ requests, r.now < t + 3600 * 1000)
    (dir' : Directory) (provider' : String → ProviderResult) (user' : Token) (now' : Int)
    (hkey : user'.phoneNumber = user.phoneNumber) (hnow : now' < t + 3600 * 1000) :
    (getClimate dir cache t provider user).climate =
      some { temperature := .num 25, humidity := .num 60 } ∧
    (getClimate dir cache t provider user).cache.find?
        (fun e => e.key == cacheKey user.phoneNumber) =
      some { key := cacheKey user.phoneNumber,
             v := { temperature := .num 25, humidity := .num 60 }, t := t + 3600000 } ∧
    getClimate dir' (runLookups (getClimate dir cache t provider user).cache requests)
        now' provider' user' =
      { climate := some { temperature := .num 25, humidity := .num 60 },
        cache := runLookups (getClimate dir cache t provider user).cache requests,
        fetched := [] } := by
  have hmiss := getClimate_miss dir cache t provider user farmer hget hfarmer
  rw [fetchClimate_fallback provider farmer.district (Or.inl hfail)] at hmiss
  have hclimate : (getClimate dir cache t provider user).climate = some fallbackClimate := by
    rw [hmiss]
  have hstored := getClimate_stores dir cache t provider user fallbackClimate
    (by rw [hmiss]; simp) hclimate
  have hkept := runLookups_keeps requests _ (t + 3600000) _ fallbackClimate hstored
    (fun r hr => by have := hreq r hr; omega)
  rw [← hkey] at hkept
  exact ⟨hclimate, hstored,
    getClimate_hit dir' _ now' (t + 3600000) provider' user' fallbackClimate hkept (by omega)⟩

/-- Witness of C11: the provider is down when farmer 1 misses the empty cache at time
0; 3599999 ms later it would answer with a reading, and is not asked. -/
theorem fallback_cached_witness :
    (getClimate [⟨1, "Asha", "+919876543210", "Salem", none, none⟩] [] 0
      (fun _ => .failure) ⟨1, "+919876543210", 3600⟩).climate =
      some { temperature := .num 25, humidity := .num 60 } ∧
    getClimate [⟨1, "Asha", "+919876543210", "Salem", none, none⟩]
        (runLookups
          (getClimate [⟨1, "Asha", "+919876543210", "Salem", none, none⟩] [] 0
            (fun _ => .failure) ⟨1, "+919876543210", 3600⟩).cache [])
        3599999 (fun _ => .response (some ⟨.num 31, .num 40⟩))
        ⟨1, "+919876543210", 7200⟩ =
      { climate := some { temperature := .num 25, humidity := .num 60 },
        cache := runLookups
          (getClimate [⟨1, "Asha", "+919876543210", "Salem", none, none⟩] [] 0
            (fun _ => .failure) ⟨1, "+919876543210", 3600⟩).cache [],
        fetched := [] } :=
  have h := fallback_cached [⟨1, "Asha", "+919876543210", "Salem", none, none⟩] [] 0
    (fun _ => .failure) ⟨1, "+919876543210", 3600⟩
    ⟨1, "Asha", "+919876543210", "Salem", none, none⟩ rfl (by decide) rfl
    [] (by intro r hr; cases hr)
    [⟨1, "Asha", "+919876543210", "Salem", none, none⟩]
    (fun _ => .response (some ⟨.num 31, .num 40⟩)) ⟨1, "+919876543210", 7200⟩ 3599999
    rfl (by decide)
  ⟨h.1, h.2.2⟩

/-- A response without the `main` section is treated as a provider failure: the lookup
returns the fallback and stores it under the farmer's key. -/
theorem missing_main_falls_back (dir : Directory) (cache : Cache) (t : Int)
    (provider : String → ProviderResult) (user : Token) (farmer : Farmer)
    (hget : (cacheGet cache t (cacheKey user.phoneNumber)).1 = none)
    (hfarmer : findById dir user.id = some farmer)
    (hmain : provider farmer.district = .response none) :
    (getClimate dir cache t provider user).climate = some fallbackClimate ∧
    (getClimate dir cache t provider user).cache.find?
        (fun e => e.key == cacheKey user.phoneNumber) =
      some { key := cacheKey user.phoneNumber, v := fallbackClimate, t := t + 3600000 } := by
  have hmiss := getClimate_miss dir cache t provider user farmer hget hfarmer
  rw [fetchClimate_fallback provider farmer.district (Or.inr hmain)] at hmiss
  have hclimate : (getClimate dir cache t provider user).climate = some fallbackClimate := by
    rw [hmiss]
  exact ⟨hclimate,
    getClimate_stores dir cache t provider user fallbackClimate (by rw [hmiss]; simp) hclimate⟩

/-- C12, the code at the failing input: a 2xx response whose `main` section carries a
humidity of 40 and no temperature is not treated as a failure; the lookup returns
climate data with an undefined temperature, which is not the fallback, and stores it
under the farmer's key for the TTL; the same holds for a `main` without humidity. -/
theorem missing_reading_is_cached :
    (getClimate [⟨1, "Asha", "+919876543210", "Salem", none, none⟩] [] 0
      (fun _ => .response (some ⟨.undefined, .num 40⟩)) ⟨1, "+919876543210", 3600⟩) =
      { climate := some { temperature := .undefined, humidity := .num 40 },
        cache := [{ key := "weather_+919876543210",
                    v := { temperature := .undefined, humidity := .num 40 },
                    t := 3600000 }],
        fetched := ["Salem"] } ∧
    (some { temperature := .undefined, humidity := .num 40 } : Option ClimateData) ≠
      some fallbackClimate ∧
    (getClimate [⟨1, "Asha", "+919876543210", "Salem", none, none⟩] [] 0
      (fun _ => .response (some ⟨.num 31, .undefined⟩)) ⟨1, "+919876543210", 3600⟩) =
      { climate := some { temperature := .num 31, humidity := .undefined },
        cache := [{ key := "weather_+919876543210",
                    v := { temperature := .num 31, humidity := .undefined },
                    t := 3600000 }],
        fetched := ["Salem"] } ∧
    (some { temperature := .num 31, humidity := .undefined } : Option ClimateData) ≠
      some fallbackClimate := by
  refine ⟨rfl, ?_, rfl, ?_⟩
  · intro h; simp [fallbackClimate] at h
  · intro h; simp [fallbackClimate] at h

/-! ## Helper lemmas: the directory invariant -/

theorem updateOne_ids (dir : Directory) (g : Farmer) :
    (updateOne dir g).map (fun f => f.id) = dir.map (fun f => f.id) := by
  unfold updateOne
  rw [List.map_map]
  apply List.map_congr_left
  intro a _
  by_cases h : a.id = g.id <;> simp [h]

theorem updateOne_phones (dir : Directory) (f g : Farmer)
    (hids : (dir.map (fun f => f.id)).Nodup) (hf : f ∈ dir)
    (hid : g.id = f.id) (hphone : g.phoneNumber = f.phoneNumber) :
    (updateOne dir g).map (fun f => f.phoneNumber) = dir.map (fun f => f.phoneNumber) := by
  unfold updateOne
  rw [List.map_map]
  apply List.map_congr_left
  intro a ha
  by_cases h : a.id = g.id
  · have haf : a = f := List.inj_on_of_nodup_map hids ha hf (h.trans hid)
    subst haf
    simp only [Function.comp, h, if_true]
    exact hphone
  · simp [h]

theorem updateOne_mem (dir : Directory) (g x : Farmer) (hx : x ∈ updateOne dir g) :
    x = g ∨ x ∈ dir := by
  unfold updateOne at hx
  obtain ⟨a, ha, hax⟩ := List.mem_map.mp hx
  by_cases h : a.id = g.id
  · left; simpa [h] using hax.symm
  · right; have : a = x := by simpa [h] using hax
    exact this ▸ ha

theorem findOne_mem (dir : Directory) (p : String) (f : Farmer)
    (h : findOne dir p = some f) : f ∈ dir :=
  List.mem_of_find?_eq_some h

/-- The invariant carried along a trace: `_id` and phone number are unique, and every
record has its OTP paths paired. -/
theorem invariant_update (dir : Directory) (f g : Farmer)
    (hids : (dir.map (fun f => f.id)).Nodup)
    (hphones : (dir.map (fun f => f.phoneNumber)).Nodup)
    (hpair : ∀ x ∈ dir, otpPaired x = true)
    (hf : f ∈ dir) (hid : g.id = f.id) (hphone : g.phoneNumber = f.phoneNumber)
    (hg : otpPaired g = true) :
    ((updateOne dir g).map (fun f => f.id)).Nodup ∧
    ((updateOne dir g).map (fun f => f.phoneNumber)).Nodup ∧
    ∀ x ∈ updateOne dir g, otpPaired x = true := by
  refine ⟨by rw [updateOne_ids]; exact hids,
    by rw [updateOne_phones dir f g hids hf hid hphone]; exact hphones, ?_⟩
  intro x hx
  rcases updateOne_mem dir g x hx with h | h
  · rw [h]; exact hg
  · exact hpair x h

theorem invariant_insert (dir dir1 : Directory) (g : Farmer)
    (hids : (dir.map (fun f => f.id)).Nodup)
    (hphones : (dir.map (fun f => f.phoneNumber)).Nodup)
    (hpair : ∀ x ∈ dir, otpPaired x = true)
    (hins : insertOne dir g = .ok dir1) (hg : otpPaired g = true) :
    (dir1.map (fun f => f.id)).Nodup ∧
    (dir1.map (fun f => f.phoneNumber)).Nodup ∧
    ∀ x ∈ dir1, otpPaired x = true := by
  unfold insertOne at hins
  split at hins
  · cases hins
  · rename_i hany
    simp only [Except.ok.injEq] at hins
    subst hins
    have hfree : ∀ a ∈ dir, a.id ≠ g.id ∧ a.phoneNumber ≠ g.phoneNumber := by
      intro a ha
      have := hany
      simp only [List.any_eq_true, not_exists, not_and, Bool.or_eq_true, beq_iff_eq,
        not_or] at this
      exact this a ha
    refine ⟨?_, ?_, ?_⟩
    · rw [List.map_append, List.nodup_append]
      refine ⟨hids, by simp, ?_⟩
      intro i hi hi'
      simp only [List.map_cons, List.map_nil, List.mem_singleton] at hi'
      obtain ⟨a, ha, hai⟩ := List.mem_map.mp hi
      exact (hfree a ha).1 (hai.trans hi')
    · rw [List.map_append, List.nodup_append]
      refine ⟨hphones, by simp, ?_⟩
      intro i hi hi'
      simp only [List.map_cons, List.map_nil, List.mem_singleton] at hi'
      obtain ⟨a, ha, hai⟩ := List.mem_map.mp hi
      exact (hfree a ha).2 (hai.trans hi')
    · intro x hx
      rcases List.mem_append.mp hx with h | h
      · exact hpair x h
      · rw [List.mem_singleton.mp h]; exact hg

/-- Every request, accepted or rejected, carries the invariant from the directory it
meets to the directory it leaves. -/
theorem authStep_invariant (dir : Directory) (request : AuthRequest)
    (hids : (dir.map (fun f => f.id)).Nodup)
    (hphones : (dir.map (fun f => f.phoneNumber)).Nodup)
    (hpair : ∀ x ∈ dir, otpPaired x = true) :
    ((authStep dir request).map (fun f => f.id)).Nodup ∧
    ((authStep dir request).map (fun f => f.phoneNumber)).Nodup ∧
    ∀ x ∈ authStep dir request, otpPaired x = true := by
  cases request with
  | signup env body =>
    simp only [authStep, signup]
    split
    · exact ⟨hids, hphones, hpair⟩
    · split
      · exact ⟨hids, hphones, hpair⟩
      · split
        · exact ⟨hids, hphones, hpair⟩
        · rename_i d hins
          exact invariant_insert dir d _ hids hphones hpair hins rfl
  | login env body =>
    simp only [authStep, login]
    split
    · exact ⟨hids, hphones, hpair⟩
    · split
      · exact ⟨hids, hphones, hpair⟩
      · rename_i f hf
        exact invariant_update dir f _ hids hphones hpair
          (findOne_mem dir _ f hf) rfl rfl rfl
  | verifyOtp env body =>
    simp only [authStep, verifyOtp]
    split
    · exact ⟨hids, hphones, hpair⟩
    · split
      · exact ⟨hids, hphones, hpair⟩
      · rename_i f hf
        split
        · exact ⟨hids, hphones, hpair⟩
        · exact invariant_update dir f _ hids hphones hpair
            (findOne_mem dir _ f hf) rfl rfl rfl

theorem runAuth_invariant (requests : List AuthRequest) (dir : Directory)
    (hids : (dir.map (fun f => f.id)).Nodup)
    (hphones : (dir.map (fun f => f.phoneNumber)).Nodup)
    (hpair : ∀ x ∈ dir, otpPaired x = true) :
    ((runAuth dir requests).map (fun f => f.id)).Nodup ∧
    ((runAuth dir requests).map (fun f => f.phoneNumber)).Nodup ∧
    ∀ x ∈ runAuth dir requests, otpPaired x = true := by
  induction requests generalizing dir with
  | nil => exact ⟨hids, hphones, hpair⟩
  | cons r rest ih =>
    obtain ⟨h1, h2, h3⟩ := authStep_invariant dir r hids hphones hpair
    exact ih (authStep dir r) h1 h2 h3

theorem otpPaired_iff (f : Farmer) :
    otpPaired f = true ↔
      (f.otp = none ∧ f.otpExpires = none) ∨ ∃ c e, f.otp = some c ∧ f.otpExpires = some e := by
  unfold otpPaired
  cases h1 : f.otp <;> cases h2 : f.otpExpires <;> simp

/-! ## Claims about the directory -/

/-- C13 (pending-OTP pairing invariant): in every directory reached from the empty
directory by any sequence of signup, login and verify-otp requests, whether they
succeed or are rejected, each farmer record has `otp` and `otpExpires` both absent or
both present, and no two records share a phone number. -/
theorem otp_pairing_invariant (requests : List AuthRequest) :
    (∀ f ∈ runAuth [] requests,
      (f.otp = none ∧ f.otpExpires = none) ∨
      ∃ c e, f.otp = some c ∧ f.otpExpires = some e) ∧
    ((runAuth [] requests).map (fun f => f.phoneNumber)).Nodup := by
  obtain ⟨-, hphones, hpair⟩ := runAuth_invariant requests [] List.nodup_nil List.nodup_nil
    (fun x hx => by cases hx)
  exact ⟨fun f hf => (otpPaired_iff f).mp (hpair f hf), hphones⟩

/-- Witness of C13: a signup, a rejected second signup for the same number, and a
login; the one record of the directory holds a code and an expiry. -/
theorem otp_pairing_invariant_witness :
    ((⟨1, "Asha", "+919876543210", "Salem", some (generateOTP (1 / 2)), some 601000⟩ :
        Farmer) ∈
      runAuth []
        [.signup ⟨0, 0, 1⟩ ⟨"Asha", "+919876543210", "Salem"⟩,
         .signup ⟨500, 0, 2⟩ ⟨"Ravi", "+919876543210", "Erode"⟩,
         .login ⟨1000, 1 / 2, 3⟩ ⟨"+919876543210"⟩]) ∧
    (((⟨1, "Asha", "+919876543210", "Salem", some (generateOTP (1 / 2)), some 601000⟩ :
          Farmer).otp = none ∧
        (⟨1, "Asha", "+919876543210", "Salem", some (generateOTP (1 / 2)), some 601000⟩ :
          Farmer).otpExpires = none) ∨
      ∃ c e,
        (⟨1, "Asha", "+919876543210", "Salem", some (generateOTP (1 / 2)), some 601000⟩ :
          Farmer).otp = some c ∧
        (⟨1, "Asha", "+919876543210", "Salem", some (generateOTP (1 / 2)), some 601000⟩ :
          Farmer).otpExpires = some e) :=
  have hmem : (⟨1, "Asha", "+919876543210", "Salem", some (generateOTP (1 / 2)),
      some 601000⟩ : Farmer) ∈
      runAuth []
        [.signup ⟨0, 0, 1⟩ ⟨"Asha", "+919876543210", "Salem"⟩,
         .signup ⟨500, 0, 2⟩ ⟨"Ravi", "+919876543210", "Erode"⟩,
         .login ⟨1000, 1 / 2, 3⟩ ⟨"+919876543210"⟩] :=
    (show runAuth []
        [.signup ⟨0, 0, 1⟩ ⟨"Asha", "+919876543210", "Salem"⟩,
         .signup ⟨500, 0, 2⟩ ⟨"Ravi", "+919876543210", "Erode"⟩,
         .login ⟨1000, 1 / 2, 3⟩ ⟨"+919876543210"⟩] =
        [⟨1, "Asha", "+919876543210", "Salem", some (generateOTP (1 / 2)), some 601000⟩]
      from rfl) ▸ List.mem_singleton.mpr rfl
  ⟨hmem, (otp_pairing_invariant _).1 _ hmem⟩

end AgroSmart
